import Mathlib

/-!
# dekamond-auth-challenge: OTP store and token service

A shallow embedding of `internal/usecases/otp.go`, `internal/usecases/jwt.go`,
`internal/usecases/auth.go`, `internal/usecases/users.go`, `internal/guards/auth.go` and
the query builder of `internal/repositories/user.go`.

The Redis server the OTP use case talks to is modelled as a finite-lifetime key/value
store with explicit state passing.  Time is an explicit argument (`now`, in milliseconds);
a key whose expiry instant has been reached is treated as absent by every command, as the
server does.  Every command takes a `fault` argument: `none` means the server answered,
`some e` means the call came back with the error `e` and had no effect on the store.

A Go `error` result is an `Option String`: `none` is `nil`, `some m` is an error whose
`Error()` text is `m`.
-/

namespace Dekamond

/-! ## The key/value store -/

/-- A stored value: what `SET` wrote, or the integer an `INCR` left behind. -/
inductive Val where
  | str (s : String)
  | int (n : Int)
  deriving DecidableEq, Repr

/-- One key of the store: its value and, when it has a time to live, the instant (ms) at
which it expires. -/
structure Entry where
  val : Val
  expireAt : Option Nat
  deriving DecidableEq, Repr

/-- The store: a map from keys to entries. -/
abbrev Redis := String → Option Entry

/-- A Go `error`: `none` is `nil`. -/
abbrev GoError := Option String

namespace Redis

/-- The store with no key at all. -/
def empty : Redis := fun _ => none

/-- Bind `k` to `e`, leaving the other keys alone. -/
def put (r : Redis) (k : String) (e : Entry) : Redis :=
  fun k' => if k' = k then some e else r k'

/-- Remove `k`, leaving the other keys alone. -/
def erase (r : Redis) (k : String) : Redis :=
  fun k' => if k' = k then none else r k'

/-- Whether an entry has reached its expiry instant at time `now`. -/
def expired (e : Entry) (now : Nat) : Bool :=
  match e.expireAt with
  | none => false
  | some t => decide (t ≤ now)

/-- The entry under `k` as the server sees it at `now`: an expired key is absent. -/
def live (r : Redis) (k : String) (now : Nat) : Option Entry :=
  match r k with
  | none => none
  | some e => if expired e now then none else some e

/-- The text a `GET` returns for a value. -/
def render : Val → String
  | .str s => s
  | .int n => toString n

/-- The integer an `INCR` reads from a value, when it is one. -/
def asInt : Val → Option Int
  | .str s => s.toInt?
  | .int n => some n

/-- Command `GET k`: the value, or the error `redis: nil` when the key is absent. -/
def get (r : Redis) (now : Nat) (fault : GoError) (k : String) : String × GoError :=
  match fault with
  | some e => ("", some e)
  | none =>
    match live r k now with
    | none => ("", some "redis: nil")
    | some e => (render e.val, none)

/-- Command `SET k v` with a time to live of `ttl` milliseconds. -/
def set (r : Redis) (now : Nat) (fault : GoError) (k v : String) (ttl : Nat) :
    Redis × GoError :=
  match fault with
  | some e => (r, some e)
  | none => (put r k ⟨.str v, some (now + ttl)⟩, none)

/-- Command `DEL k`. -/
def del (r : Redis) (fault : GoError) (k : String) : Redis × GoError :=
  match fault with
  | some e => (r, some e)
  | none => (erase r k, none)

/-- Command `INCR k`: an absent key counts as 0 and gets no time to live; a present key
keeps the time to live it has.  The counter is not bounded in this model (the server's
64-bit ceiling is out of reach inside a window). -/
def incr (r : Redis) (now : Nat) (fault : GoError) (k : String) : Redis × Int × GoError :=
  match fault with
  | some e => (r, 0, some e)
  | none =>
    match live r k now with
    | none => (put r k ⟨.int 1, none⟩, 1, none)
    | some e =>
      match asInt e.val with
      | none => (r, 0, some "ERR value is not an integer or out of range")
      | some n => (put r k ⟨.int (n + 1), e.expireAt⟩, n + 1, none)

/-- Command `EXPIRE k` with `ttl` milliseconds: sets the expiry of a present key. -/
def expire (r : Redis) (now : Nat) (fault : GoError) (k : String) (ttl : Nat) : Redis :=
  match fault with
  | some _ => r
  | none =>
    match live r k now with
    | none => r
    | some e => put r k ⟨e.val, some (now + ttl)⟩

end Redis

/-! ## `internal/usecases/otp.go` -/

namespace otp

/-- Two minutes, in milliseconds: the lifetime of a stored code. -/
def otpTTL : Nat := 2 * 60 * 1000

/-- Ten minutes, in milliseconds: the lifetime of a rate-limit counter. -/
def rateTTL : Nat := 10 * 60 * 1000

/-- The key `fmt.Sprintf("otp:code:%s", phoneNumber)`. -/
def codeKey (phoneNumber : String) : String := "otp:code:" ++ phoneNumber

/-- The key `fmt.Sprintf("otp:10m:%s", phoneNumber)`. -/
def rateKey (phoneNumber : String) : String := "otp:10m:" ++ phoneNumber

/-- The error text of a failed verification. -/
def errInvalidOtp : String := "invalid or expired otp"

/-- The error text of a throttled delivery. -/
def errRateLimit : String := "rate limit exceeded: max 3 OTPs per 10 minutes"

/-- The value of a Go `int64` holding the integer `i`: `i` reduced into the signed 64-bit
range. -/
def wrapInt64 (i : Int) : Int := (i + 2 ^ 63) % 2 ^ 64 - 2 ^ 63

/-- Left-pad a digit string with `'0'` up to `width` characters. -/
def zeroPad (width : Nat) (digits : String) : String :=
  String.mk (List.replicate (width - digits.length) '0') ++ digits

/-- The text `fmt.Sprintf("%05d", v)`: decimal, padded with zeros to five characters, the
sign (when there is one) first and counted in the width. -/
def sprintf05d (v : Int) : String :=
  if v < 0 then "-" ++ zeroPad 4 (Nat.repr v.natAbs) else zeroPad 5 (Nat.repr v.toNat)

/-- Method `GenerateOTP`.  `draw` is the outcome of `rand.Int(rand.Reader, big.NewInt(90000))`:
an error, or a number the source drew below 90000.  The code is
`fmt.Sprintf("%05d", num.Int64()+10000)`. -/
def GenerateOTP (draw : Except String Nat) : String × GoError :=
  match draw with
  | .error err => ("", some err)
  | .ok num =>
    let otpCode := sprintf05d (wrapInt64 (wrapInt64 (num : Int) + 10000))
    (otpCode, none)

/-- Lexicographic `<=` on sequences of character codes. -/
def lexLe : List Nat → List Nat → Bool
  | [], _ => true
  | _ :: _, [] => false
  | x :: xs, y :: ys => decide (x < y) || (x == y && lexLe xs ys)

/-- Go's `<=` on strings as the tests use it (`assert.GreaterOrEqual`, `assert.LessOrEqual`):
lexicographic on the character codes. -/
def goStringLe (a b : String) : Bool :=
  lexLe (a.data.map Char.toNat) (b.data.map Char.toNat)

/-- The codes the spec allows: five characters, all decimal digits, between "10000" and
"99999" in lexicographic order. -/
def otpCodes : Set String :=
  {s | s.length = 5 ∧ (∀ c ∈ s.data, c.isDigit = true) ∧
    goStringLe "10000" s = true ∧ goStringLe s "99999" = true}

/-- Method `SaveOTP`: one `SET` with a two-minute expiry; its error is returned as is. -/
def SaveOTP (r : Redis) (now : Nat) (setFault : GoError) (phoneNumber otpCode : String) :
    Redis × GoError :=
  let key := codeKey phoneNumber
  match Redis.set r now setFault key otpCode otpTTL with
  | (r', some err) => (r', some err)
  | (r', none) => (r', none)

/-- Method `VerifyOTP`: `GET`, compare, then a `DEL` whose error is dropped. -/
def VerifyOTP (r : Redis) (now : Nat) (getFault delFault : GoError)
    (phoneNumber otpCode : String) : Redis × GoError :=
  let key := codeKey phoneNumber
  match Redis.get r now getFault key with
  | (_, some _) => (r, some errInvalidOtp)
  | (val, none) =>
    if val ≠ otpCode then (r, some errInvalidOtp)
    else
      -- consume OTP
      let (r', _) := Redis.del r delFault key
      (r', none)

/-- Method `validateOtpRateLimit`: `INCR`, an `EXPIRE` (result unused) when the count is 1,
then the comparison with 3. -/
def validateOtpRateLimit (r : Redis) (now : Nat) (incrFault expireFault : GoError)
    (phoneNumber : String) : Redis × GoError :=
  let key := rateKey phoneNumber
  match Redis.incr r now incrFault key with
  | (r', _, some err) => (r', some err)
  | (r', count, none) =>
    let r2 := if count = 1 then Redis.expire r' now expireFault key rateTTL else r'
    if count > 3 then (r2, some errRateLimit) else (r2, none)

/-- Method `SendOtpSms`: the rate-limit check, then a log line (not modelled: the logger
holds no state the program reads). -/
def SendOtpSms (r : Redis) (now : Nat) (incrFault expireFault : GoError)
    (phoneNumber _otpCode : String) : Redis × GoError :=
  match validateOtpRateLimit r now incrFault expireFault phoneNumber with
  | (r', some err) => (r', some err)
  | (r', none) => (r', none)

end otp

/-! ## The token library (`github.com/golang-jwt/jwt/v5`) as `jwt.go` uses it

A token string is taken at the level of its three decoded segments.  The MAC is symbolic: a
signature records the key and the signing input it was computed from, and it verifies under
a key exactly when it was computed with that key from the header and claims it stands
next to.  Instants are nanoseconds since the Unix epoch. -/

/-- A JSON value as written in a token's claims segment (scalars only). -/
inductive JsonValue where
  | null
  | bool (b : Bool)
  | number (n : Int)
  | string (s : String)
  deriving DecidableEq, Repr

/-- What `encoding/json` decodes a JSON value to inside a `map[string]interface{}`; a
`float64` is given by its (integer) value. -/
inductive GoValue where
  | nil
  | bool (b : Bool)
  | float64 (v : Int)
  | string (s : String)
  deriving DecidableEq, Repr

/-- The claims segment: the members of a JSON object, in the order written. -/
abbrev Claims := List (String × JsonValue)

/-- The Go type `jwt.MapClaims`, as a lookup. -/
abbrev MapClaims := String → Option GoValue

/-- A symbolic MAC: the key and the signing input (header algorithm and claims). -/
structure Signature where
  key : String
  alg : String
  claims : Claims
  deriving DecidableEq, Repr

/-- A token string.  It is a text that is not the encoding of a header, claims and a
signature (`raw`), or the claims it decodes to when its header has no `alg` string, or the
header algorithm, the claims and the signature it decodes to.  The base64 and JSON
decoders are not modelled: for a text of three segments, `detail` is what the library says
of the first segment it cannot decode, such as
`could not base64 decode header: illegal base64 data at input byte 1`. -/
inductive TokenString where
  | malformed (raw : String) (detail : String)
  | unspecified (claims : Claims)
  | jws (alg : String) (claims : Claims) (sig : Signature)
  deriving DecidableEq, Repr

/-- The Go type `*jwt.Token` after `jwt.Parse`, as far as `jwt.go` reads it. -/
structure Token where
  Claims : MapClaims
  Valid : Bool

/-- Modelled from the spec: the type `entities.JwtPayload` (package `internal/entities`),
whose only field read or written by `jwt.go` is `UserId`, an unsigned 32-bit integer. -/
structure JwtPayload where
  UserId : Nat
  deriving DecidableEq, Repr

/-- What a Go call comes to: it returns a value and an error, or it panics. -/
inductive Outcome (α : Type) where
  | returned (value : α) (err : GoError)
  | panicked (msg : String)
  deriving DecidableEq, Repr

namespace jwt

/-- Nanoseconds in a second. -/
def second : Nat := 1000000000

/-- Method `(time.Time).Unix()`: whole seconds since the epoch. -/
def unix (t : Nat) : Int := ((t / second : Nat) : Int)

/-- The `float64` nearest to the natural number `n` (ties to even), as a number. -/
def roundFloat64 (n : Nat) : Nat :=
  if n < 2 ^ 53 then n
  else
    let sh := Nat.log2 n - 52
    let q := n / 2 ^ sh
    let rem := n % 2 ^ sh
    let half := 2 ^ (sh - 1)
    let q' := if rem > half ∨ (rem = half ∧ q % 2 = 1) then q + 1 else q
    q' * 2 ^ sh

/-- The least magnitude that is out of the `float64` range, `2 ^ 1024`. -/
def float64Limit : Nat := 2 ^ 256 * 2 ^ 256 * 2 ^ 256 * 2 ^ 256

/-- Decoding a JSON integer into a `float64`; it fails when the number is out of range. -/
def float64OfInt (n : Int) : Option Int :=
  let m := roundFloat64 n.natAbs
  if m ≥ float64Limit then none else some (if n < 0 then -(m : Int) else (m : Int))

/-- Decoding one claim value. -/
def decodeValue : JsonValue → Option GoValue
  | .null => some .nil
  | .bool b => some (.bool b)
  | .string s => some (.string s)
  | .number n => (float64OfInt n).map GoValue.float64

/-- Decoding the claims object into a map; a later member replaces an earlier one of the
same name. -/
def decodeClaims (cs : Claims) : Option MapClaims :=
  cs.foldl (fun acc kv =>
    match acc, decodeValue kv.2 with
    | some m, some v => some (fun k => if k = kv.1 then some v else m k)
    | _, _ => none) (some (fun _ => none))

/-- The conversion `uint32(f)` of a `float64`: the value itself when it is in range; out of
range the language leaves the result to the implementation, and this is what amd64 gives. -/
def uint32OfFloat64 (v : Int) : Nat :=
  if 0 ≤ v ∧ v < 2 ^ 32 then v.toNat
  else if -(2 ^ 63) ≤ v ∧ v < 2 ^ 63 then (v % 2 ^ 32).toNat
  else 0

/-- Method `(*jwt.Token).SignedString(key)` for an HMAC method and a byte-slice key. -/
def SignedString (alg : String) (claims : Claims) (key : String) : TokenString × GoError :=
  (.jws alg claims ⟨key, alg, claims⟩, none)

/-- The HMAC methods, which take a byte-slice key. -/
def hmacMethods : List String := ["HS256", "HS384", "HS512"]

/-- The registered methods that do not take a byte-slice key, each with the error of its
`Verify` for such a key (the texts of version 5.2 of the library and later). -/
def otherMethods : List (String × String) :=
  [("none", "token is unverifiable: 'none' signature type is not allowed"),
   ("RS256", "key is of invalid type: RSA verify expects *rsa.PublicKey"),
   ("RS384", "key is of invalid type: RSA verify expects *rsa.PublicKey"),
   ("RS512", "key is of invalid type: RSA verify expects *rsa.PublicKey"),
   ("PS256", "key is of invalid type: RSA-PSS verify expects *rsa.PublicKey"),
   ("PS384", "key is of invalid type: RSA-PSS verify expects *rsa.PublicKey"),
   ("PS512", "key is of invalid type: RSA-PSS verify expects *rsa.PublicKey"),
   ("ES256", "key is of invalid type: ECDSA verify expects *ecdsa.PublicKey"),
   ("ES384", "key is of invalid type: ECDSA verify expects *ecdsa.PublicKey"),
   ("ES512", "key is of invalid type: ECDSA verify expects *ecdsa.PublicKey"),
   ("EdDSA", "key is of invalid type: Ed25519 verify expects ed25519.PublicKey")]

/-- The error of `json.Unmarshal` on claims that do not decode: it names the first number
that is out of the `float64` range, as written. -/
def decodeError (cs : Claims) : String :=
  match cs.findSome? (fun kv =>
      match kv.2 with
      | .number n => if (float64OfInt n).isNone then some n else none
      | _ => none) with
  | some n => "json: cannot unmarshal number " ++ toString n ++ " into Go value of type float64"
  | none => "json: cannot unmarshal"

/-- A numeric date claim as the validator reads it: absent, or a `float64` equal to 0, is no
date; another `float64` is a date in seconds; anything else is an error of invalid type. -/
def numericDate (m : MapClaims) (name : String) : Except String (Option Int) :=
  match m name with
  | none => .ok none
  | some (.float64 v) => if v = 0 then .ok none else .ok (some v)
  | some _ => .error ("invalid type for claim: " ++ name ++ " is invalid")

/-- The default claims validation at instant `now`: `exp`, then `nbf`. -/
def validateClaims (m : MapClaims) (now : Nat) : List String :=
  (match numericDate m "exp" with
    | .error e => [e]
    | .ok none => []
    | .ok (some exp) => if (now : Int) < exp * second then [] else ["token is expired"]) ++
  (match numericDate m "nbf" with
    | .error e => [e]
    | .ok none => []
    | .ok (some nbf) => if (now : Int) < nbf * second then ["token is not valid yet"] else [])

/-- Function `jwt.Parse(tokenString, keyFunc)` with a key function that returns
`[]byte(secret)`, at instant `now`.  The steps are in the order of the library: the split
at the dots, the decoding of header and claims, the look-up of the method, the signature,
the claims. -/
def Parse (secret : String) (now : Nat) (tokenString : TokenString) : Token × GoError :=
  match tokenString with
  | .malformed raw detail =>
    (⟨fun _ => none, false⟩,
      some ("token is malformed: " ++
        if raw.data.count '.' = 2 then detail
        else "token contains an invalid number of segments"))
  | .unspecified claims =>
    match decodeClaims claims with
    | none =>
      (⟨fun _ => none, false⟩,
        some ("token is malformed: could not JSON decode claim: " ++ decodeError claims))
    | some m => (⟨m, false⟩, some "token is unverifiable: signing method (alg) is unspecified")
  | .jws alg claims sig =>
    match decodeClaims claims with
    | none =>
      (⟨fun _ => none, false⟩,
        some ("token is malformed: could not JSON decode claim: " ++ decodeError claims))
    | some m =>
      if alg ∈ hmacMethods then
        if sig.key = secret ∧ sig.alg = alg ∧ sig.claims = claims then
          match validateClaims m now with
          | [] => (⟨m, true⟩, none)
          | errs => (⟨m, false⟩, some ("token has invalid claims: " ++ ", ".intercalate errs))
        else (⟨m, false⟩, some "token signature is invalid: signature is invalid")
      else
        match otherMethods.lookup alg with
        | some complaint => (⟨m, false⟩, some ("token signature is invalid: " ++ complaint))
        | none =>
          (⟨m, false⟩, some "token is unverifiable: signing method (alg) is unavailable")

end jwt

/-! ## `internal/usecases/jwt.go` -/

namespace jwtUsecase

/-- One hour, in nanoseconds (`time.Hour * 1`). -/
def accessLifetime : Nat := 3600 * jwt.second

/-- Seven days, in nanoseconds (`time.Hour * 24 * 7`). -/
def refreshLifetime : Nat := 3600 * 24 * 7 * jwt.second

/-- Method `GenerateToken`, with the secret of the use case and `time.Now()` as `now`. -/
def GenerateToken (jwtSecretKey : String) (now : Nat) (payload : JwtPayload) :
    TokenString × GoError :=
  let claims : Claims :=
    [("exp", .number (jwt.unix (now + accessLifetime))),
     ("userId", .number (payload.UserId : Int))]
  match jwt.SignedString "HS256" claims jwtSecretKey with
  | (_, some err) => (.malformed "" "", some err)
  | (tokenString, none) => (tokenString, none)

/-- Method `GenerateRefreshToken`. -/
def GenerateRefreshToken (jwtSecretKey : String) (now : Nat) (payload : JwtPayload) :
    TokenString × GoError :=
  let claims : Claims :=
    [("exp", .number (jwt.unix (now + refreshLifetime))),
     ("refresh", .bool true),
     ("userId", .number (payload.UserId : Int))]
  match jwt.SignedString "HS256" claims jwtSecretKey with
  | (_, some err) => (.malformed "" "", some err)
  | (refreshTokenString, none) => (refreshTokenString, none)

/-- Method `ValidateToken`, at instant `now`.  The type assertion `claims["userId"].(float64)`
panics when the claim is absent or not a number; `claims["refresh"].(bool)` is the
two-result form and does not. -/
def ValidateToken (jwtSecretKey : String) (now : Nat) (tokenString : TokenString) :
    Outcome JwtPayload :=
  match jwt.Parse jwtSecretKey now tokenString with
  | (_, some err) => .returned ⟨0⟩ (some err)
  | (token, none) =>
    if token.Valid then
      match token.Claims "userId" with
      | some (.float64 userId) =>
        match token.Claims "refresh" with
        | some (.bool true) => .returned ⟨0⟩ (some "invalid token")
        | _ => .returned ⟨jwt.uint32OfFloat64 userId⟩ none
      | _ => .panicked "interface conversion: interface \x7b\x7d is not float64"
    else .returned ⟨0⟩ none

end jwtUsecase

end Dekamond

namespace Dekamond

/-! ## The Go `strings` functions that `auth.go` uses

Strings are taken as sequences of characters.  The byte slice `token[7:]` is taken only
after the lower-cased token was found to start with "bearer ", so the seven bytes dropped
are seven one-byte characters. -/

namespace strings

/-- Function `unicode.IsSpace`: the characters `strings.TrimSpace` removes. -/
def isSpace (c : Char) : Bool :=
  let n := c.toNat
  (9 ≤ n && n ≤ 13) || n == 32 || n == 133 || n == 160 || n == 5760 ||
    (8192 ≤ n && n ≤ 8202) || n == 8232 || n == 8233 || n == 8239 || n == 8287 || n == 12288

/-- Function `strings.TrimSpace`. -/
def TrimSpace (s : String) : String :=
  String.mk ((s.data.dropWhile isSpace).reverse.dropWhile isSpace).reverse

/-- The lower case of one character, as far as it can be an ASCII character: the ASCII
capitals, the Kelvin sign and the dotted capital I.  Every other character has a lower case
outside ASCII and is left as it is here; the results are only searched for ASCII texts. -/
def toLowerRune (c : Char) : Char :=
  if c.toNat = 8490 then 'k'
  else if c.toNat = 304 then 'i'
  else c.toLower

/-- Function `strings.ToLower`. -/
def ToLower (s : String) : String := String.mk (s.data.map toLowerRune)

/-- Function `strings.HasPrefix`. -/
def HasPrefix (s pre : String) : Bool := pre.data.isPrefixOf s.data

/-- Whether `sub` occurs in `l` as a block. -/
def containsList : List Char → List Char → Bool
  | [], sub => sub.isPrefixOf []
  | c :: l, sub => sub.isPrefixOf (c :: l) || containsList l sub

/-- Function `strings.Contains`. -/
def Contains (s sub : String) : Bool := containsList s.data sub.data

/-- The slice `s[n:]` of a string whose first `n` characters are one byte each. -/
def sliceFrom (s : String) (n : Nat) : String := String.mk (s.data.drop n)

end strings

/-! ## Request validation -/

namespace validator

/-- One rule of a `validate` tag. -/
inductive Rule where
  | required
  | min (n : Nat)
  | max (n : Nat)
  | len (n : Nat)
  | numeric
  deriving DecidableEq, Repr

/-- A non-empty run of decimal digits. -/
def isDigits (l : List Char) : Bool := !l.isEmpty && l.all Char.isDigit

/-- Modelled from the spec: the rule `numeric` as `utils.ValidateStruct` (not among the
sources) applies it to the OTP, whose format the spec gives as "exactly 5 numeric digits":
the string is a non-empty run of decimal digits. -/
def isNumeric (l : List Char) : Bool := isDigits l

/-- Whether a string satisfies a rule; lengths are counted in characters. -/
def Rule.holds : Rule → String → Bool
  | .required, v => decide (v ≠ "")
  | .min n, v => decide (n ≤ v.length)
  | .max n, v => decide (v.length ≤ n)
  | .len n, v => decide (v.length = n)
  | .numeric, v => isNumeric v.data

/-- The name of a rule as it stands in the tag. -/
def Rule.tag : Rule → String
  | .required => "required"
  | .min _ => "min"
  | .max _ => "max"
  | .len _ => "len"
  | .numeric => "numeric"

/-- A string field of a struct with the rules of its `validate` tag, in order. -/
structure Field where
  name : String
  value : String
  rules : List Rule

/-- The first rule of a field that its value breaks. -/
def Field.failing (f : Field) : Option Rule := f.rules.find? (fun r => !r.holds f.value)

end validator

namespace utils

/-- Modelled from the spec: `utils.ValidateStruct` (package `pkg/utils`; the function is not
among the sources).  The spec has it reject a malformed request with a validation error
before anything else is done.  The format rules are the `validate` tags of the request
type (`internal/dto/auth.go`), read as the spec states the formats (phone: 8 to 20
characters, required; OTP: exactly 5 numeric digits, required); the error names, for each
field that breaks a rule, the first rule it breaks. -/
def ValidateStruct (structName : String) (fields : List validator.Field) : GoError :=
  let errs := fields.filterMap (fun f =>
    f.failing.map (fun r =>
      "Key: '" ++ structName ++ "." ++ f.name ++ "' Error:Field validation for '" ++ f.name ++
        "' failed on the '" ++ r.tag ++ "' tag"))
  if errs.isEmpty then none else some ("\n".intercalate errs)

end utils

namespace dto

/-- The request of `LoginRequestOtp`. -/
structure LoginDTO where
  Phone : String
  deriving DecidableEq, Repr

/-- The request of `VerifyLoginOTP`. -/
structure VerifyLoginOTP where
  Phone : String
  OTP : String
  deriving DecidableEq, Repr

/-- The tag of `LoginDTO`: `Phone` is `required,min=8,max=20`. -/
def LoginDTO.fields (d : LoginDTO) : List validator.Field :=
  [⟨"Phone", d.Phone, [.required, .min 8, .max 20]⟩]

/-- The tags of `VerifyLoginOTP`: `Phone` is `required,min=8,max=20`, `OTP` is
`required,len=5,numeric`. -/
def VerifyLoginOTP.fields (d : VerifyLoginOTP) : List validator.Field :=
  [⟨"Phone", d.Phone, [.required, .min 8, .max 20]⟩,
   ⟨"OTP", d.OTP, [.required, .len 5, .numeric]⟩]

end dto

/-! ## `internal/usecases/interfaces.go` and `internal/repositories/interfaces.go`

The collaborators of the auth service are interfaces.  A method takes the state of the
world `σ` it acts on and returns the new state with its results. -/

/-- Modelled from the spec: the type `entities.User` (package `internal/entities`):
`{ id, phone, created_at }`, the id an unsigned 32-bit integer. -/
structure User where
  Id : Nat
  Phone : String
  CreatedAt : Nat
  deriving DecidableEq, Repr

/-- The zero value `entities.User{}`. -/
def User.zero : User := ⟨0, "", 0⟩

/-- Interface `OtpUsecase`. -/
structure OtpUsecase (σ : Type) where
  SendOtpSms : σ → String → String → σ × GoError
  GenerateOTP : σ → σ × (String × GoError)
  SaveOTP : σ → String → String → σ × GoError
  VerifyOTP : σ → String → String → σ × GoError

/-- Interface `JwtUsecase`. -/
structure JwtUsecase (σ : Type) where
  GenerateToken : σ → JwtPayload → σ × (String × GoError)
  ValidateToken : σ → String → σ × (JwtPayload × GoError)
  GenerateRefreshToken : σ → JwtPayload → σ × (String × GoError)

/-- Interface `UserRepository`, the three methods the auth service calls. -/
structure UserRepository (σ : Type) where
  GetUserByPhone : σ → String → σ × (User × GoError)
  GetUserById : σ → Nat → σ × (User × GoError)
  CreateUser : σ → User → σ × (User × GoError)

/-! ## `internal/usecases/auth.go` -/

/-- The struct `authService` (its `cfg` field is never read). -/
structure authService (σ : Type) where
  userRepository : UserRepository σ
  jwtUsecase : JwtUsecase σ
  otpUsecase : OtpUsecase σ

namespace authService

variable {σ : Type}

/-- Method `LoginRequestOtp`. -/
def LoginRequestOtp (a : authService σ) (s : σ) (req : dto.LoginDTO) : σ × GoError :=
  match utils.ValidateStruct "LoginDTO" req.fields with
  | some err => (s, some err)
  | none =>
    -- generate and save otp
    match a.otpUsecase.GenerateOTP s with
    | (s1, (_, some err)) => (s1, some err)
    | (s1, (code, none)) =>
      match a.otpUsecase.SaveOTP s1 req.Phone code with
      | (s2, some err) => (s2, some err)
      | (s2, none) => a.otpUsecase.SendOtpSms s2 req.Phone code

/-- The test `strings.Contains(err.Error(), "no rows") ||
strings.Contains(strings.ToLower(err.Error()), "not found")`. -/
def isNotFound (msg : String) : Bool :=
  strings.Contains msg "no rows" || strings.Contains (strings.ToLower msg) "not found"

/-- The tail of `VerifyLoginOTP`: the token for the resolved user. -/
def issueToken (a : authService σ) (s : σ) (user : User) : σ × (String × GoError) :=
  match a.jwtUsecase.GenerateToken s ⟨user.Id⟩ with
  | (s1, (_, some err)) => (s1, ("", some err))
  | (s1, (token, none)) => (s1, (token, none))

/-- Method `VerifyLoginOTP`. -/
def VerifyLoginOTP (a : authService σ) (s : σ) (body : dto.VerifyLoginOTP) :
    σ × (String × GoError) :=
  match utils.ValidateStruct "VerifyLoginOTP" body.fields with
  | some err => (s, ("", some err))
  | none =>
    match a.otpUsecase.VerifyOTP s body.Phone body.OTP with
    | (s1, some err) => (s1, ("", some err))
    | (s1, none) =>
      -- find or create user
      match a.userRepository.GetUserByPhone s1 body.Phone with
      | (s2, (_, some err)) =>
        -- try create if not found
        if isNotFound err then
          match a.userRepository.CreateUser s2 { User.zero with Phone := body.Phone } with
          | (s3, (_, some err')) => (s3, ("", some err'))
          | (s3, (user, none)) => issueToken a s3 user
        else (s2, ("", some err))
      | (s2, (user, none)) => issueToken a s2 user

/-- Method `ValidateToken` of the auth service. -/
def ValidateToken (a : authService σ) (s : σ) (token : String) : σ × (User × GoError) :=
  let token := strings.TrimSpace token
  if token = "" then (s, (User.zero, some "missing token"))
  else
    -- Allow header with Bearer prefix
    let token :=
      if strings.HasPrefix (strings.ToLower token) "bearer " then
        strings.TrimSpace (strings.sliceFrom token 7)
      else token
    match a.jwtUsecase.ValidateToken s token with
    | (s1, (_, some err)) => (s1, (User.zero, some err))
    | (s1, (payload, none)) => a.userRepository.GetUserById s1 payload.UserId

end authService

/-! ## Recording collaborators

To speak of the calls a method makes, the state of the world is the list of calls made so
far and every collaborator answers as scripted, like the mocks of `auth_test.go`. -/

/-- A call to a collaborator, with its arguments. -/
inductive Call where
  | SendOtpSms (phone otp : String)
  | GenerateOTP
  | SaveOTP (phone otp : String)
  | VerifyOTP (phone otp : String)
  | GenerateToken (payload : JwtPayload)
  | ValidateToken (token : String)
  | GenerateRefreshToken (payload : JwtPayload)
  | GetUserByPhone (phone : String)
  | GetUserById (id : Nat)
  | CreateUser (user : User)
  deriving DecidableEq, Repr

/-- The scripted answers of the collaborators. -/
structure Mock where
  sendOtpSms : String → String → GoError
  generateOTP : String × GoError
  saveOTP : String → String → GoError
  verifyOTP : String → String → GoError
  generateToken : JwtPayload → String × GoError
  validateToken : String → JwtPayload × GoError
  generateRefreshToken : JwtPayload → String × GoError
  getUserByPhone : String → User × GoError
  getUserById : Nat → User × GoError
  createUser : User → User × GoError

/-- The auth service over scripted collaborators that record their calls. -/
def Mock.service (m : Mock) : authService (List Call) where
  userRepository :=
    { GetUserByPhone := fun tr phone => (tr ++ [.GetUserByPhone phone], m.getUserByPhone phone)
      GetUserById := fun tr id => (tr ++ [.GetUserById id], m.getUserById id)
      CreateUser := fun tr user => (tr ++ [.CreateUser user], m.createUser user) }
  jwtUsecase :=
    { GenerateToken := fun tr p => (tr ++ [.GenerateToken p], m.generateToken p)
      ValidateToken := fun tr t => (tr ++ [.ValidateToken t], m.validateToken t)
      GenerateRefreshToken := fun tr p =>
        (tr ++ [.GenerateRefreshToken p], m.generateRefreshToken p) }
  otpUsecase :=
    { SendOtpSms := fun tr phone otp => (tr ++ [.SendOtpSms phone otp], m.sendOtpSms phone otp)
      GenerateOTP := fun tr => (tr ++ [.GenerateOTP], m.generateOTP)
      SaveOTP := fun tr phone otp => (tr ++ [.SaveOTP phone otp], m.saveOTP phone otp)
      VerifyOTP := fun tr phone otp => (tr ++ [.VerifyOTP phone otp], m.verifyOTP phone otp) }

/-- A script in which every collaborator succeeds with fixed answers. -/
def Mock.happy : Mock where
  sendOtpSms := fun _ _ => none
  generateOTP := ("12345", none)
  saveOTP := fun _ _ => none
  verifyOTP := fun _ _ => none
  generateToken := fun p => ("jwt-token-" ++ toString p.UserId, none)
  validateToken := fun _ => (⟨123⟩, none)
  generateRefreshToken := fun p => ("refresh-token-" ++ toString p.UserId, none)
  getUserByPhone := fun phone => (⟨123, phone, 1⟩, none)
  getUserById := fun id => (⟨id, "+1234567890", 1⟩, none)
  createUser := fun u => (⟨456, u.Phone, 2⟩, none)

end Dekamond


namespace Dekamond

/-! ## The auth service over the OTP use case on the store -/

/-- What the surroundings do during one call: the draw of the random source and the faults
of the store commands. -/
structure Env where
  draw : Except String Nat
  setFault : GoError
  getFault : GoError
  delFault : GoError
  incrFault : GoError
  expireFault : GoError

/-- Surroundings in which the source draws `n` and the store answers every command. -/
def Env.quiet (n : Nat) : Env := ⟨.ok n, none, none, none, none, none⟩

/-- The state the OTP use case acts on: the store, and the instant of the call. -/
structure World where
  redis : Redis
  now : Nat

/-- The OTP use case of `otp.go` as an `OtpUsecase`. -/
def otp.usecase (env : Env) : OtpUsecase World where
  SendOtpSms := fun w phone code =>
    let res := otp.SendOtpSms w.redis w.now env.incrFault env.expireFault phone code
    ({ w with redis := res.1 }, res.2)
  GenerateOTP := fun w => (w, otp.GenerateOTP env.draw)
  SaveOTP := fun w phone code =>
    let res := otp.SaveOTP w.redis w.now env.setFault phone code
    ({ w with redis := res.1 }, res.2)
  VerifyOTP := fun w phone code =>
    let res := otp.VerifyOTP w.redis w.now env.getFault env.delFault phone code
    ({ w with redis := res.1 }, res.2)

/-- The auth service whose OTP use case is the one of `otp.go`, with a scripted user
repository and token service that leave the store alone. -/
def Mock.onStore (m : Mock) (env : Env) : authService World where
  userRepository :=
    { GetUserByPhone := fun w phone => (w, m.getUserByPhone phone)
      GetUserById := fun w id => (w, m.getUserById id)
      CreateUser := fun w user => (w, m.createUser user) }
  jwtUsecase :=
    { GenerateToken := fun w p => (w, m.generateToken p)
      ValidateToken := fun w t => (w, m.validateToken t)
      GenerateRefreshToken := fun w p => (w, m.generateRefreshToken p) }
  otpUsecase := otp.usecase env

/-- Successive calls of `VerifyOTP` for one phone, each with its instant, its submitted
code and the faults of its two commands: the store after the last call. -/
def otp.verifyOTPRun (r : Redis) (phoneNumber : String) :
    List (Nat × String × GoError × GoError) → Redis
  | [] => r
  | (t, code, gf, df) :: rest =>
    otp.verifyOTPRun (otp.VerifyOTP r t gf df phoneNumber code).1 phoneNumber rest

/-! ## `internal/usecases/users.go` -/

namespace usersUsecase

/-- The value of a Go `uint32` holding the integer `i`. -/
def wrapUint32 (i : Int) : Nat := (i % 2 ^ 32).toNat

/-- Method `GetAllUsers`.  `repo` is the method `GetAllUsers` of the repository; a nil
pointer is `none`; `page` and `limit` are `uint32` and the arithmetic is that of `uint32`. -/
def GetAllUsers {σ ρ : Type}
    (repo : σ → Nat → Nat → Option String → Option Nat → Option Nat → σ × ρ)
    (s : σ) (page limit : Nat) (phoneSearchTerm : Option String)
    (creationFrom creationTo : Option Nat) : σ × ρ :=
  let page := if page = 0 then 1 else page
  let limit := if limit = 0 then 10 else limit
  let skip := wrapUint32 (((wrapUint32 ((page : Int) - 1) * limit : Nat) : Int))
  repo s skip limit phoneSearchTerm creationFrom creationTo

end usersUsecase

/-! ## `internal/repositories/user.go` -/

namespace userRepository

/-- An argument of a query. -/
inductive Arg where
  | text (s : String)
  | time (t : Nat)
  | int64 (n : Int)
  deriving DecidableEq, Repr

/-- The text `fmt.Sprintf("$%d", idx)`. -/
def placeholder (idx : Nat) : String := "$" ++ toString idx

/-- The state of the builder of `GetAllUsers` after the three filters: the conditions, the
arguments and the next index. -/
def filters (phoneSearchTerm : Option String) (creationFrom creationTo : Option Nat) :
    List String × List Arg × Nat :=
  let st : List String × List Arg × Nat := ([], [], 1)
  let st :=
    match phoneSearchTerm with
    | some term =>
      if term ≠ "" then
        (st.1 ++ ["phone ILIKE " ++ placeholder st.2.2],
          st.2.1 ++ [Arg.text ("%" ++ term ++ "%")], st.2.2 + 1)
      else st
    | none => st
  let st :=
    match creationFrom with
    | some t => (st.1 ++ ["created_at >= " ++ placeholder st.2.2], st.2.1 ++ [Arg.time t],
        st.2.2 + 1)
    | none => st
  let st :=
    match creationTo with
    | some t => (st.1 ++ ["created_at <= " ++ placeholder st.2.2], st.2.1 ++ [Arg.time t],
        st.2.2 + 1)
    | none => st
  st

/-- The query text and the arguments that `GetAllUsers` passes to `db.Query`. -/
def buildQuery (skip limit : Nat) (phoneSearchTerm : Option String)
    (creationFrom creationTo : Option Nat) : String × List Arg :=
  let (conds, args, idx) := filters phoneSearchTerm creationFrom creationTo
  let sb := "SELECT id, phone, created_at FROM users"
  let sb := if conds.length > 0 then sb ++ " WHERE " ++ " AND ".intercalate conds else sb
  let sb := sb ++ " ORDER BY id ASC"
  let sb := sb ++ (" OFFSET " ++ placeholder idx ++ " LIMIT " ++ placeholder (idx + 1))
  (sb, args ++ [Arg.int64 (skip : Int), Arg.int64 (limit : Int)])

/-- The numbers that stand behind a `$` in a text, in order of occurrence. -/
def placeholdersOf : List Char → List Nat
  | [] => []
  | c :: rest =>
    if c = '$' then
      (rest.takeWhile Char.isDigit).foldl (fun n d => n * 10 + (d.toNat - 48)) 0 ::
        placeholdersOf rest
    else placeholdersOf rest

/-- The number of places at which `sub` occurs in a text. -/
def occurrences : List Char → List Char → Nat
  | [], _ => 0
  | c :: rest, sub =>
    (if sub.isPrefixOf (c :: rest) then 1 else 0) + occurrences rest sub

/-- The value of a Go `uint32` converted from an `int32` holding `i`. -/
def uint32OfInt32 (i : Int) : Nat := (i % 2 ^ 32).toNat

/-- Method `GetUserById`, given what `QueryRow(...).Scan` produced: an error, or the row's
id (an `int32`), phone and creation time. -/
def GetUserById (row : Except String (Int × String × Nat)) : User × GoError :=
  match row with
  | .error err => (User.zero, some err)
  | .ok (id32, phone, createdAt) => (⟨uint32OfInt32 id32, phone, createdAt⟩, none)

end userRepository

/-! ## `internal/guards/auth.go`

The request context of the web framework, as far as the guard touches it. -/

/-- The Go type `*gin.Context`: the request headers, the response written so far (status
and body), whether the chain was aborted, and the values set on the context. -/
structure GinContext where
  headers : String → String
  response : Option (Nat × String)
  aborted : Bool
  keys : String → Option User

namespace GinContext

/-- Method `GetHeader`. -/
def GetHeader (c : GinContext) (name : String) : String := c.headers name

/-- Method `JSON` with the empty object `gin.H{}`. -/
def JSONEmpty (c : GinContext) (code : Nat) : GinContext :=
  { c with response := some (code, "\x7b\x7d") }

/-- Method `Abort`. -/
def Abort (c : GinContext) : GinContext := { c with aborted := true }

/-- Method `Set` with a user as value. -/
def Set (c : GinContext) (key : String) (user : User) : GinContext :=
  { c with keys := fun k => if k = key then some user else c.keys k }

end GinContext

namespace authGuard

/-- The constant `http.StatusUnauthorized`. -/
def StatusUnauthorized : Nat := 401

/-- Method `JwtGuard`.  `validateToken` is the method `ValidateToken` of the auth service;
`next` is the rest of the handler chain, which `c.Next()` runs. -/
def JwtGuard (validateToken : String → User × GoError) (next : GinContext → GinContext)
    (c : GinContext) : GinContext :=
  match validateToken (c.GetHeader "Authorization") with
  | (_, some _) => (c.JSONEmpty StatusUnauthorized).Abort
  | (user, none) => next (c.Set "user" user)

end authGuard

end Dekamond
namespace Dekamond

/-! ## Facts about the store -/

theorem Redis.live_put_same (r : Redis) (k : String) (e : Entry) (now : Nat) :
    Redis.live (Redis.put r k e) k now = if Redis.expired e now then none else some e := by
  simp [Redis.live, Redis.put]

/-- Writing one key does not change what is read under another. -/
theorem Redis.live_put_other (r : Redis) (k k' : String) (e : Entry) (now : Nat)
    (h : k' ≠ k) : Redis.live (Redis.put r k e) k' now = Redis.live r k' now := by
  simp [Redis.live, Redis.put, h]

/-- A removed key is absent. -/
theorem Redis.live_erase_same (r : Redis) (k : String) (now : Nat) :
    Redis.live (Redis.erase r k) k now = none := by
  simp [Redis.live, Redis.erase]

/-- A live entry is the stored entry, and it has not expired. -/
theorem Redis.live_eq_some (r : Redis) (k : String) (now : Nat) (e : Entry)
    (h : Redis.live r k now = some e) : r k = some e ∧ Redis.expired e now = false := by
  unfold Redis.live at h
  cases hr : r k with
  | none => simp [hr] at h
  | some e' =>
    simp only [hr] at h
    by_cases hx : Redis.expired e' now = true
    · simp [hx] at h
    · simp only [hx, if_false, Option.some.injEq, Bool.false_eq_true] at h
      subst h
      exact ⟨rfl, by simpa using hx⟩

/-- Different phones have different code keys. -/
theorem otp.codeKey_injective : Function.Injective otp.codeKey := by
  intro a b h
  have h' := congrArg String.data h
  simp only [otp.codeKey, String.data_append] at h'
  exact String.ext (List.append_cancel_left h')

/-- Different phones have different counter keys. -/
theorem otp.rateKey_injective : Function.Injective otp.rateKey := by
  intro a b h
  have h' := congrArg String.data h
  simp only [otp.rateKey, String.data_append] at h'
  exact String.ext (List.append_cancel_left h')

/-- Code keys and counter keys never coincide. -/
theorem otp.codeKey_ne_rateKey (p q : String) : otp.codeKey p ≠ otp.rateKey q := by
  intro h
  have h' := congrArg String.data h
  simp [otp.codeKey, otp.rateKey, String.data_append] at h'

namespace otp

/-- What `VerifyOTP` returns, case by case on what the store holds. -/
theorem VerifyOTP_eq (r : Redis) (now : Nat) (gf df : GoError) (phone code : String) :
    VerifyOTP r now gf df phone code =
      match gf with
      | some _ => (r, some errInvalidOtp)
      | none =>
        match Redis.live r (codeKey phone) now with
        | none => (r, some errInvalidOtp)
        | some e =>
          if Redis.render e.val = code then ((Redis.del r df (codeKey phone)).1, none)
          else (r, some errInvalidOtp) := by
  cases gf with
  | some f => simp [VerifyOTP, Redis.get]
  | none =>
    cases h : Redis.live r (codeKey phone) now with
    | none => simp [VerifyOTP, Redis.get, h]
    | some e =>
      by_cases hc : Redis.render e.val = code <;> simp [VerifyOTP, Redis.get, h, hc]

end otp
end Dekamond

namespace Dekamond
namespace otp

/-- C1 (as stated, refuted): a code is saved, `VerifyOTP` succeeds while its `DEL` fails
(the error is dropped), and a second `VerifyOTP` with the same phone and code succeeds
again, with no `SaveOTP` in between. -/
theorem verifyOTP_single_use_fails_when_delete_fails :
    ¬ (∀ (r : Redis) (t1 t2 : Nat) (gf1 df1 gf2 df2 : GoError) (phone code : String),
        (VerifyOTP r t1 gf1 df1 phone code).2 = none →
        (VerifyOTP (VerifyOTP r t1 gf1 df1 phone code).1 t2 gf2 df2 phone code).2
          = some "invalid or expired otp") := by
  intro h
  have h1 := h (SaveOTP Redis.empty 0 none "+1234567890" "12345").1 5 6 none
    (some "connection refused") none none "+1234567890" "12345" (by decide)
  revert h1
  decide

/-- C1 (amended): when `VerifyOTP(phone, code)` succeeds and its delete of the record was
carried out, a later `VerifyOTP(phone, code)` fails with "invalid or expired otp", at any
time and whatever the store answers on that second call, on every store `r2` that holds
under the phone's code key what the first call left there (nothing saved for that phone in
between). -/
theorem verifyOTP_single_use (r r2 : Redis) (t1 t2 : Nat) (gf1 gf2 df2 : GoError)
    (phone code : String)
    (h : (VerifyOTP r t1 gf1 none phone code).2 = none)
    (hr2 : r2 (codeKey phone) = (VerifyOTP r t1 gf1 none phone code).1 (codeKey phone)) :
    (VerifyOTP r2 t2 gf2 df2 phone code).2 = some "invalid or expired otp" := by
  have h1 : (VerifyOTP r t1 gf1 none phone code).1 = Redis.erase r (codeKey phone) := by
    rw [VerifyOTP_eq] at h ⊢
    cases gf1 with
    | some f => simp at h
    | none =>
      cases hl : Redis.live r (codeKey phone) t1 with
      | none => simp [hl] at h
      | some e =>
        by_cases hc : Redis.render e.val = code
        · simp [hc, Redis.del]
        · simp [hl, hc] at h
  have h2 : Redis.live r2 (codeKey phone) t2 = none := by
    rw [h1] at hr2
    simp [Redis.live, hr2, Redis.erase]
  rw [VerifyOTP_eq]
  cases gf2 with
  | some f => simp [errInvalidOtp]
  | none => simp [h2, errInvalidOtp]

/-- An instance of the amended C1: save, verify with the delete carried out, verify again. -/
theorem verifyOTP_single_use_witness :
    (VerifyOTP (SaveOTP Redis.empty 0 none "+1234567890" "12345").1 5 none none
        "+1234567890" "12345").2 = none ∧
    (VerifyOTP (VerifyOTP (SaveOTP Redis.empty 0 none "+1234567890" "12345").1 5 none none
        "+1234567890" "12345").1 6 none none "+1234567890" "12345").2
      = some "invalid or expired otp" :=
  ⟨by decide, verifyOTP_single_use _ _ 5 6 none none none "+1234567890" "12345" (by decide)
    rfl⟩

/-- C5: after `SaveOTP(phone, c)` succeeds at time `now`, whatever the store held before,
for every instant `t` of the next two minutes `VerifyOTP(phone, c')` (store answering)
succeeds iff `c' = c`; from two minutes on it fails; and every other key of the store, in
particular the code of every other phone, is as before. -/
theorem saveOTP_replaces_code (r : Redis) (now : Nat) (sf : GoError) (phone c : String)
    (h : (SaveOTP r now sf phone c).2 = none) :
    (∀ (t : Nat) (df : GoError) (c' : String), t < now + 2 * 60 * 1000 →
        ((VerifyOTP (SaveOTP r now sf phone c).1 t none df phone c').2 = none ↔ c' = c)) ∧
    (∀ (t : Nat) (df : GoError) (c' : String), now + 2 * 60 * 1000 ≤ t →
        (VerifyOTP (SaveOTP r now sf phone c).1 t none df phone c').2
          = some "invalid or expired otp") ∧
    (∀ p : String, p ≠ phone → (SaveOTP r now sf phone c).1 (codeKey p) = r (codeKey p)) ∧
    (∀ k : String, k ≠ codeKey phone → (SaveOTP r now sf phone c).1 k = r k) := by
  cases sf with
  | some f => simp [SaveOTP, Redis.set] at h
  | none =>
    have hs : (SaveOTP r now none phone c).1
        = Redis.put r (codeKey phone) ⟨.str c, some (now + otpTTL)⟩ := by
      simp [SaveOTP, Redis.set]
    rw [hs]
    refine ⟨?_, ?_, ?_, ?_⟩
    · intro t df c' ht
      have hlt : ¬ (now + otpTTL ≤ t) := by simp only [otpTTL]; omega
      rw [VerifyOTP_eq]
      simp only [Redis.live_put_same, Redis.expired, hlt, decide_False, Redis.render]
      by_cases hc : c = c'
      · simp [hc]
      · have hc' : ¬ c' = c := fun h' => hc h'.symm
        simp [hc, hc']
    · intro t df c' ht
      have hle : now + otpTTL ≤ t := by simp only [otpTTL]; omega
      rw [VerifyOTP_eq]
      simp [Redis.live_put_same, Redis.expired, hle, errInvalidOtp]
    · intro p hp
      have : codeKey p ≠ codeKey phone := fun h' => hp (codeKey_injective h')
      simp [Redis.put, this]
    · intro k hk
      simp [Redis.put, hk]

/-- An instance of C5: a second save replaces the first code, which no longer verifies. -/
theorem saveOTP_replaces_code_witness :
    (SaveOTP (SaveOTP Redis.empty 0 none "+1234567890" "11111").1 1000 none
        "+1234567890" "22222").2 = none ∧
    (VerifyOTP (SaveOTP (SaveOTP Redis.empty 0 none "+1234567890" "11111").1 1000 none
        "+1234567890" "22222").1 2000 none none "+1234567890" "11111").2 ≠ none :=
  ⟨by decide, fun hv => absurd
    (((saveOTP_replaces_code (SaveOTP Redis.empty 0 none "+1234567890" "11111").1 1000 none
        "+1234567890" "22222" (by decide)).1 2000 none "11111" (by decide)).mp hv)
    (by decide)⟩

end otp
end Dekamond

namespace Dekamond
namespace otp

/-- C6: `VerifyOTP` has one error only.  Whenever it fails the error is
"invalid or expired otp" and the store is left as it was; that is the outcome when the
store read fails (whatever the read error), when no code is stored for the phone, when the
stored code has expired, and when the stored code differs from the submitted one. -/
theorem verifyOTP_error_uniform (r : Redis) (now : Nat) (gf df : GoError)
    (phone code : String) :
    ((VerifyOTP r now gf df phone code).2 ≠ none →
        VerifyOTP r now gf df phone code = (r, some "invalid or expired otp")) ∧
    (∀ f : String, VerifyOTP r now (some f) df phone code
        = (r, some "invalid or expired otp")) ∧
    (r (codeKey phone) = none →
        VerifyOTP r now none df phone code = (r, some "invalid or expired otp")) ∧
    (∀ e : Entry, r (codeKey phone) = some e → Redis.expired e now = true →
        VerifyOTP r now none df phone code = (r, some "invalid or expired otp")) ∧
    (∀ e : Entry, r (codeKey phone) = some e → Redis.render e.val ≠ code →
        VerifyOTP r now none df phone code = (r, some "invalid or expired otp")) := by
  refine ⟨?_, ?_, ?_, ?_, ?_⟩
  · rw [VerifyOTP_eq]
    cases gf with
    | some f => simp [errInvalidOtp]
    | none =>
      cases hl : Redis.live r (codeKey phone) now with
      | none => simp [errInvalidOtp]
      | some e =>
        by_cases hc : Redis.render e.val = code <;> simp [hc, errInvalidOtp]
  · intro f
    rw [VerifyOTP_eq]
    simp [errInvalidOtp]
  · intro h
    rw [VerifyOTP_eq]
    simp [Redis.live, h, errInvalidOtp]
  · intro e h hx
    rw [VerifyOTP_eq]
    simp [Redis.live, h, hx, errInvalidOtp]
  · intro e h hx
    rw [VerifyOTP_eq]
    by_cases hexp : Redis.expired e now = true
    · simp [Redis.live, h, hexp, errInvalidOtp]
    · simp [Redis.live, h, hexp, hx, errInvalidOtp]

/-- An instance of C6: a wrong code against a stored one. -/
theorem verifyOTP_error_uniform_witness :
    VerifyOTP (SaveOTP Redis.empty 0 none "+1234567890_wrong" "54321").1 5 none none
        "+1234567890_wrong" "00000"
      = ((SaveOTP Redis.empty 0 none "+1234567890_wrong" "54321").1,
          some "invalid or expired otp") :=
  (verifyOTP_error_uniform (SaveOTP Redis.empty 0 none "+1234567890_wrong" "54321").1 5 none
    none "+1234567890_wrong" "00000").2.2.2.2 ⟨.str "54321", some 120000⟩ (by decide)
    (by decide)

/-- C9: when the code stored (and not expired) for the phone equals the submitted code and
the read is answered, `VerifyOTP` returns no error whatever the outcome of the delete: with
the delete carried out, and with the delete failing with any error. -/
theorem verifyOTP_ignores_delete_failure (r : Redis) (now : Nat) (df : GoError)
    (phone code : String) (e : Entry)
    (h : Redis.live r (codeKey phone) now = some e) (hv : Redis.render e.val = code) :
    (VerifyOTP r now none df phone code).2 = none := by
  rw [VerifyOTP_eq]
  simp [h, hv]

/-- An instance of C9: the code matches and the delete fails. -/
theorem verifyOTP_ignores_delete_failure_witness :
    (VerifyOTP (SaveOTP Redis.empty 0 none "+1234567890" "12345").1 5 none
        (some "connection refused") "+1234567890" "12345").2 = none :=
  verifyOTP_ignores_delete_failure _ 5 (some "connection refused") "+1234567890" "12345"
    ⟨.str "12345", some 120000⟩ (by decide) (by decide)

end otp
end Dekamond

namespace Dekamond
namespace otp

/-! ## Decimal rendering -/

theorem toDigitsCore_step (f n : Nat) (ds : List Char) :
    Nat.toDigitsCore 10 (f + 1) n ds =
      if n / 10 = 0 then Nat.digitChar (n % 10) :: ds
      else Nat.toDigitsCore 10 f (n / 10) (Nat.digitChar (n % 10) :: ds) := by
  simp [Nat.toDigitsCore]

/-- The digit loop on a five-digit number. -/
theorem toDigitsCore_five (f m : Nat) (h1 : 10000 ≤ m) (h2 : m < 100000) :
    Nat.toDigitsCore 10 (f + 1 + 1 + 1 + 1 + 1) m [] =
      [Nat.digitChar (m / 10000), Nat.digitChar (m / 1000 % 10),
      Nat.digitChar (m / 100 % 10), Nat.digitChar (m / 10 % 10), Nat.digitChar (m % 10)] := by
  have a1 : ¬ m / 10 = 0 := by omega
  have a2 : ¬ m / 10 / 10 = 0 := by omega
  have a3 : ¬ m / 10 / 10 / 10 = 0 := by omega
  have a4 : ¬ m / 10 / 10 / 10 / 10 = 0 := by omega
  have a5 : m / 10 / 10 / 10 / 10 / 10 = 0 := by omega
  rw [toDigitsCore_step, if_neg a1, toDigitsCore_step, if_neg a2, toDigitsCore_step, if_neg a3,
    toDigitsCore_step, if_neg a4, toDigitsCore_step, if_pos a5]
  have b1 : m / 10 / 10 / 10 / 10 % 10 = m / 10000 := by omega
  have b2 : m / 10 / 10 / 10 % 10 = m / 1000 % 10 := by omega
  have b3 : m / 10 / 10 % 10 = m / 100 % 10 := by omega
  rw [b1, b2, b3]

/-- The decimal text of a five-digit number, digit by digit. -/
theorem repr_five (m : Nat) (h1 : 10000 ≤ m) (h2 : m < 100000) :
    Nat.repr m = String.mk [Nat.digitChar (m / 10000), Nat.digitChar (m / 1000 % 10),
      Nat.digitChar (m / 100 % 10), Nat.digitChar (m / 10 % 10), Nat.digitChar (m % 10)] := by
  obtain ⟨f, hf⟩ : ∃ f, m + 1 = f + 1 + 1 + 1 + 1 + 1 := ⟨m - 4, by omega⟩
  rw [Nat.repr, Nat.toDigits, hf, toDigitsCore_five f m h1 h2]
  rfl

/-- The character of a digit value is a digit. -/
theorem digitChar_isDigit (d : Nat) (h : d < 10) : (Nat.digitChar d).isDigit = true := by
  interval_cases d <;> decide

/-- The code of the character of a digit value. -/
theorem digitChar_toNat (d : Nat) (h : d < 10) : (Nat.digitChar d).toNat = 48 + d := by
  interval_cases d <;> decide

/-- The codes of the digit characters. -/
theorem isDigit_toNat (c : Char) (h : c.isDigit = true) : 48 ≤ c.toNat ∧ c.toNat ≤ 57 := by
  simp only [Char.isDigit, Bool.and_eq_true, decide_eq_true_eq] at h
  have h1 : (48 : UInt32) ≤ c.val := h.1
  have h2 : c.val ≤ (57 : UInt32) := h.2
  rw [UInt32.le_def] at h1 h2
  simp only [Char.toNat, UInt32.toNat]
  exact ⟨h1, h2⟩

/-- A digit character is the character of its digit value. -/
theorem digitChar_of_isDigit (c : Char) (h : c.isDigit = true) :
    Nat.digitChar (c.toNat - 48) = c := by
  obtain ⟨h1, h2⟩ := isDigit_toNat c h
  obtain ⟨d, hd⟩ : ∃ d, c.toNat = 48 + d := ⟨c.toNat - 48, by omega⟩
  have hd10 : d < 10 := by omega
  have hc : c = Char.ofNat (48 + d) := by rw [← hd, Char.ofNat_toNat]
  rw [hd, hc]
  interval_cases d <;> decide

/-- The number a non-empty string of decimal digits denotes. -/
theorem toNat?_of_digits (cs : List Char) (hne : cs ≠ [])
    (hall : ∀ c ∈ cs, c.isDigit = true) :
    (String.mk cs).toNat? = some (cs.foldl (fun n c => n * 10 + (c.toNat - 48)) 0) := by
  have he : (String.mk cs).isEmpty = false := by
    rw [Bool.eq_false_iff]
    intro h
    rw [String.isEmpty_iff] at h
    exact hne (congrArg String.data h)
  have ha : cs.all (fun c => c.isDigit) = true := by
    rw [List.all_eq_true]
    exact hall
  have h0 : ('0' : Char).toNat = 48 := rfl
  simp only [String.toNat?, String.isNat, String.all_eq, String.foldl_eq, he, ha, h0,
    Bool.not_false, Bool.and_self, if_true]

/-- The five decimal digits of a number below 100000 are digit characters. -/
theorem fiveDigits_isDigit (m : Nat) (h2 : m < 100000) :
    ∀ c ∈ [Nat.digitChar (m / 10000), Nat.digitChar (m / 1000 % 10),
      Nat.digitChar (m / 100 % 10), Nat.digitChar (m / 10 % 10), Nat.digitChar (m % 10)],
      c.isDigit = true := by
  intro c hc
  simp only [List.mem_cons, List.mem_singleton, List.not_mem_nil, or_false] at hc
  rcases hc with rfl | rfl | rfl | rfl | rfl <;> exact digitChar_isDigit _ (by omega)

/-- The character codes of the five decimal digits. -/
theorem fiveDigits_codes (m : Nat) (h2 : m < 100000) :
    [Nat.digitChar (m / 10000), Nat.digitChar (m / 1000 % 10), Nat.digitChar (m / 100 % 10),
      Nat.digitChar (m / 10 % 10), Nat.digitChar (m % 10)].map Char.toNat =
    [48 + m / 10000, 48 + m / 1000 % 10, 48 + m / 100 % 10, 48 + m / 10 % 10, 48 + m % 10] := by
  simp only [List.map_cons, List.map_nil]
  rw [digitChar_toNat _ (by omega : m / 10000 < 10),
    digitChar_toNat _ (by omega : m / 1000 % 10 < 10),
    digitChar_toNat _ (by omega : m / 100 % 10 < 10),
    digitChar_toNat _ (by omega : m / 10 % 10 < 10),
    digitChar_toNat _ (by omega : m % 10 < 10)]

/-- The five decimal digits of a number below 100000 denote that number. -/
theorem fiveDigits_toNat? (m : Nat) (h2 : m < 100000) :
    (String.mk [Nat.digitChar (m / 10000), Nat.digitChar (m / 1000 % 10),
      Nat.digitChar (m / 100 % 10), Nat.digitChar (m / 10 % 10),
      Nat.digitChar (m % 10)]).toNat? = some m := by
  have hd : ∀ d, d < 10 → (Nat.digitChar d).toNat - 48 = d := fun d hd => by
    rw [digitChar_toNat d hd]; omega
  rw [toNat?_of_digits _ (by simp) (fiveDigits_isDigit m h2)]
  have h1 := hd _ (by omega : m / 10000 < 10)
  have h2 := hd _ (by omega : m / 1000 % 10 < 10)
  have h3 := hd _ (by omega : m / 100 % 10 < 10)
  have h4 := hd _ (by omega : m / 10 % 10 < 10)
  have h5 := hd _ (by omega : m % 10 < 10)
  simp only [List.foldl_cons, List.foldl_nil, h1, h2, h3, h4, h5]
  exact congrArg some (by omega)

/-- What `sprintf05d` gives for a five-digit number, digit by digit. -/
theorem sprintf05d_five (m : Nat) (h1 : 10000 ≤ m) (h2 : m < 100000) :
    sprintf05d (m : Int) =
      String.mk [Nat.digitChar (m / 10000), Nat.digitChar (m / 1000 % 10),
        Nat.digitChar (m / 100 % 10), Nat.digitChar (m / 10 % 10), Nat.digitChar (m % 10)] := by
  have hnn : ¬ ((m : Int) < 0) := by omega
  simp only [sprintf05d, hnn, if_false, Int.toNat_ofNat]
  rw [repr_five m h1 h2]
  simp [zeroPad, String.length]

/-- On a draw `n` below 90000 the two `int64` operations do not wrap. -/
theorem GenerateOTP_ok (n m : Nat) (h : n < 90000) (hm : m = n + 10000) :
    GenerateOTP (.ok n) = (sprintf05d (m : Int), none) := by
  have hw : wrapInt64 (wrapInt64 (n : Int) + 10000) = (m : Int) := by
    simp only [wrapInt64]
    omega
  simp only [GenerateOTP, hw]

/-- A sequence that is pointwise below another is lexicographically below it. -/
theorem lexLe_of_pointwise (a b : List Nat) (h : List.Forall₂ (fun x y => x ≤ y) a b) :
    lexLe a b = true := by
  induction h with
  | nil => rfl
  | @cons x y xs ys hxy _ ih =>
    simp only [lexLe, Bool.or_eq_true, decide_eq_true_eq, Bool.and_eq_true, beq_iff_eq, ih,
      and_true]
    omega

end otp
end Dekamond

namespace Dekamond
namespace otp

/-- The five-digit text of `m` lies between "10000" and "99999" when `m` has five digits. -/
theorem fiveDigits_bounds (m : Nat) (h1 : 10000 ≤ m) (h2 : m < 100000) :
    goStringLe "10000" (String.mk [Nat.digitChar (m / 10000), Nat.digitChar (m / 1000 % 10),
      Nat.digitChar (m / 100 % 10), Nat.digitChar (m / 10 % 10), Nat.digitChar (m % 10)]) = true ∧
    goStringLe (String.mk [Nat.digitChar (m / 10000), Nat.digitChar (m / 1000 % 10),
      Nat.digitChar (m / 100 % 10), Nat.digitChar (m / 10 % 10), Nat.digitChar (m % 10)])
      "99999" = true := by
  have hlo : "10000".data.map Char.toNat = [49, 48, 48, 48, 48] := by decide
  have hhi : "99999".data.map Char.toNat = [57, 57, 57, 57, 57] := by decide
  constructor
  · rw [goStringLe, hlo, fiveDigits_codes m h2]
    apply lexLe_of_pointwise
    refine .cons ?_ (.cons ?_ (.cons ?_ (.cons ?_ (.cons ?_ .nil)))) <;> omega
  · rw [goStringLe, hhi, fiveDigits_codes m h2]
    apply lexLe_of_pointwise
    refine .cons ?_ (.cons ?_ (.cons ?_ (.cons ?_ (.cons ?_ .nil)))) <;> omega

/-- The code of a draw below 90000 is one of the allowed codes and denotes the draw plus
10000. -/
theorem GenerateOTP_mem (n : Nat) (h : n < 90000) :
    ∃ s : String, GenerateOTP (.ok n) = (s, none) ∧ s ∈ otpCodes ∧
      s.toNat? = some (n + 10000) := by
  obtain ⟨m, hm⟩ : ∃ m, m = n + 10000 := ⟨_, rfl⟩
  have h1 : 10000 ≤ m := by omega
  have h2 : m < 100000 := by omega
  refine ⟨_, (GenerateOTP_ok n m h hm).trans (by rw [sprintf05d_five m h1 h2]), ?_, ?_⟩
  · exact ⟨rfl, fiveDigits_isDigit m h2, fiveDigits_bounds m h1 h2⟩
  · rw [← hm]
    exact fiveDigits_toNat? m h2

/-- C7: for every number `n` below 90000 that the random source returns, `GenerateOTP`
returns, with no error, a string of exactly five characters, all decimal digits, that is
`>= "10000"` and `<= "99999"` in lexicographic order and whose numeric value is `n + 10000`;
and for every outcome of the random source `GenerateOTP` returns an error iff the
source failed, the error being the source's. -/
theorem generateOTP_format (n : Nat) (h : n < 90000) :
    (∃ s : String, GenerateOTP (.ok n) = (s, none) ∧ s.length = 5 ∧
      (∀ c ∈ s.data, c.isDigit = true) ∧
      goStringLe "10000" s = true ∧ goStringLe s "99999" = true ∧
      s.toNat? = some (n + 10000)) ∧
    (∀ (draw : Except String Nat) (e : String),
      (GenerateOTP draw).2 = some e ↔ draw = .error e) := by
  constructor
  · obtain ⟨s, he, ⟨hlen, hdig, hlo, hhi⟩, hval⟩ := GenerateOTP_mem n h
    exact ⟨s, he, hlen, hdig, hlo, hhi, hval⟩
  · intro draw e
    cases draw with
    | error err => simp [GenerateOTP]
    | ok m => simp [GenerateOTP]

/-- An instance of C7: the draw 2345. -/
theorem generateOTP_format_witness :
    (∃ s : String, GenerateOTP (.ok 2345) = (s, none) ∧ s.length = 5 ∧
      (∀ c ∈ s.data, c.isDigit = true) ∧
      goStringLe "10000" s = true ∧ goStringLe s "99999" = true ∧
      s.toNat? = some (2345 + 10000)) :=
  (generateOTP_format 2345 (by norm_num)).1

/-- C8: the map from the draw `n` in `[0, 90000)` to the code `GenerateOTP` returns is a
bijection onto the set of five-digit strings between "10000" and "99999", and that set has
exactly 90000 elements. -/
theorem generateOTP_bijective :
    Set.BijOn (fun n : Nat => (GenerateOTP (.ok n)).1) (Set.Iio 90000) otpCodes ∧
    otpCodes.ncard = 90000 := by
  have hbij : Set.BijOn (fun n : Nat => (GenerateOTP (.ok n)).1) (Set.Iio 90000) otpCodes := by
    refine ⟨?_, ?_, ?_⟩
    · intro n hn
      obtain ⟨s, he, hmem, _⟩ := GenerateOTP_mem n hn
      simp only [he]
      exact hmem
    · intro a ha b hb hab
      obtain ⟨s, hea, _, hva⟩ := GenerateOTP_mem a ha
      obtain ⟨s', heb, _, hvb⟩ := GenerateOTP_mem b hb
      simp only [hea, heb] at hab
      rw [hab, hvb] at hva
      have := Option.some.inj hva
      omega
    · intro s hs
      obtain ⟨hlen, hdig, hlo, _⟩ := hs
      obtain ⟨cs⟩ := s
      simp only [String.length] at hlen
      match cs, hlen with
      | [c1, c2, c3, c4, c5], _ =>
        have g1 := isDigit_toNat c1 (hdig c1 (by simp))
        have g2 := isDigit_toNat c2 (hdig c2 (by simp))
        have g3 := isDigit_toNat c3 (hdig c3 (by simp))
        have g4 := isDigit_toNat c4 (hdig c4 (by simp))
        have g5 := isDigit_toNat c5 (hdig c5 (by simp))
        have g0 : 49 ≤ c1.toNat := by
          have hl : "10000".data.map Char.toNat = [49, 48, 48, 48, 48] := by decide
          rw [goStringLe, hl] at hlo
          simp only [List.map_cons, lexLe, Bool.or_eq_true, decide_eq_true_eq,
            Bool.and_eq_true, beq_iff_eq] at hlo
          omega
        obtain ⟨m, hm⟩ : ∃ m, m = (c1.toNat - 48) * 10000 + (c2.toNat - 48) * 1000 +
          (c3.toNat - 48) * 100 + (c4.toNat - 48) * 10 + (c5.toNat - 48) := ⟨_, rfl⟩
        have hm1 : 10000 ≤ m := by omega
        have hm2 : m < 100000 := by omega
        refine ⟨m - 10000, by simp only [Set.mem_Iio]; omega, ?_⟩
        simp only
        rw [GenerateOTP_ok (m - 10000) m (by omega) (by omega), sprintf05d_five m hm1 hm2]
        have e1 : m / 10000 = c1.toNat - 48 := by omega
        have e2 : m / 1000 % 10 = c2.toNat - 48 := by omega
        have e3 : m / 100 % 10 = c3.toNat - 48 := by omega
        have e4 : m / 10 % 10 = c4.toNat - 48 := by omega
        have e5 : m % 10 = c5.toNat - 48 := by omega
        rw [e1, e2, e3, e4, e5, digitChar_of_isDigit c1 (hdig c1 (by simp)),
          digitChar_of_isDigit c2 (hdig c2 (by simp)), digitChar_of_isDigit c3 (hdig c3 (by simp)),
          digitChar_of_isDigit c4 (hdig c4 (by simp)), digitChar_of_isDigit c5 (hdig c5 (by simp))]
  refine ⟨hbij, ?_⟩
  rw [← hbij.image_eq, Set.ncard_image_of_injOn hbij.injOn]
  have : (Set.Iio 90000 : Set Nat) = ↑(Finset.range 90000) := by
    ext x; simp
  rw [this, Set.ncard_coe_Finset, Finset.card_range]

end otp
end Dekamond

namespace Dekamond
namespace otp

/-! ## The rate limit -/

end otp
end Dekamond

namespace Dekamond
namespace otp

end otp
end Dekamond

namespace Dekamond
namespace otp

end otp
end Dekamond

namespace Dekamond
namespace jwt

/-! ## Tokens -/

/-- A natural number below `2 ^ 53` is a `float64`: decoding it loses nothing. -/
theorem float64OfInt_natCast (n : Nat) (h : n < 2 ^ 53) :
    float64OfInt (n : Int) = some (n : Int) := by
  have h1 : roundFloat64 n = n := by
    unfold roundFloat64
    rw [if_pos h]
  have h2 : ¬ (n ≥ float64Limit) := by
    have : (2 : Nat) ^ 53 ≤ float64Limit := by decide
    omega
  have h3 : ¬ ((n : Int) < 0) := by omega
  simp [float64OfInt, h1, h2, h3]

/-- The conversion back to `uint32` of a value in range. -/
theorem uint32OfFloat64_natCast (u : Nat) (h : u < 2 ^ 32) : uint32OfFloat64 (u : Int) = u := by
  have h1 : (0 : Int) ≤ (u : Int) ∧ (u : Int) < 2 ^ 32 := by
    constructor
    · omega
    · exact_mod_cast h
  unfold uint32OfFloat64
  rw [if_pos h1]
  exact Int.toNat_ofNat u

/-- The expiry second of a token issued at an instant of the `int64` nanosecond clock is
below `2 ^ 53` and is not 0, for a lifetime of at most seven days. -/
theorem unix_bounds (now life : Nat) (hnow : now < 2 ^ 63)
    (hlife : life ≤ 3600 * 24 * 7 * second) (hpos : second ≤ life) :
    (now + life) / second < 2 ^ 53 ∧ 0 < (now + life) / second := by
  simp only [second] at *
  omega

end jwt
end Dekamond

namespace Dekamond
namespace jwtUsecase

/-- What `jwt.Parse` makes of a token signed with the same secret whose claims are an
expiry second, a user id and possibly the refresh mark: before the expiry it is valid and
its claims are the decoded ones. -/
theorem Parse_signed (secret : String) (t : Nat) (exp u : Nat) (refresh : Bool)
    (hexp : exp < 2 ^ 53) (hpos : 0 < exp) (hu : u < 2 ^ 53) (ht : t < exp * jwt.second) :
    ∃ tok : Token,
      jwt.Parse secret t
        (.jws "HS256"
          ((("exp", JsonValue.number (exp : Int)) ::
            (if refresh then [("refresh", JsonValue.bool true)] else [])) ++
            [("userId", JsonValue.number (u : Int))])
          ⟨secret, "HS256",
            (("exp", JsonValue.number (exp : Int)) ::
              (if refresh then [("refresh", JsonValue.bool true)] else [])) ++
              [("userId", JsonValue.number (u : Int))]⟩) = (tok, none) ∧
      tok.Valid = true ∧ tok.Claims "userId" = some (.float64 (u : Int)) ∧
      tok.Claims "refresh" = (if refresh then some (.bool true) else none) := by
  have he := jwt.float64OfInt_natCast exp hexp
  have hu' := jwt.float64OfInt_natCast u hu
  have hne : ¬ ((exp : Int) = 0) := by omega
  have hlt : (t : Int) < (exp : Int) * (jwt.second : Int) := by exact_mod_cast ht
  cases refresh <;>
    simp [jwt.Parse, jwt.decodeClaims, jwt.decodeValue, he, hu', jwt.hmacMethods,
      jwt.validateClaims, jwt.numericDate, hne, hlt]

end jwtUsecase
end Dekamond

namespace Dekamond
namespace jwtUsecase

/-- C3: for every 32-bit user id `u`, every secret and every issue instant `now` of the
`int64` nanosecond clock, `GenerateRefreshToken` returns a token with no error, and
`ValidateToken` under the same secret, at every instant `t` before the token's expiry (the
whole second seven days after `now`), returns the error "invalid token" with the zero
payload, although `jwt.Parse` accepts the token (its signature and expiry are good). -/
theorem validateToken_rejects_refresh (secret : String) (u now t : Nat)
    (hu : u < 2 ^ 32) (hnow : now < 2 ^ 63)
    (ht : t < (now + 3600 * 24 * 7 * 1000000000) / 1000000000 * 1000000000) :
    (GenerateRefreshToken secret now ⟨u⟩).2 = none ∧
    (jwt.Parse secret t (GenerateRefreshToken secret now ⟨u⟩).1).2 = none ∧
    ValidateToken secret t (GenerateRefreshToken secret now ⟨u⟩).1
      = .returned ⟨0⟩ (some "invalid token") := by
  obtain ⟨hb, hp⟩ := jwt.unix_bounds now refreshLifetime hnow (le_refl _)
    (by simp [refreshLifetime, jwt.second])
  obtain ⟨tok, hparse, hvalid, huid, href⟩ := Parse_signed secret t
    ((now + refreshLifetime) / jwt.second) u true hb hp (by omega)
    (by simpa [refreshLifetime, jwt.second] using ht)
  have hgen : (GenerateRefreshToken secret now ⟨u⟩).1 =
      .jws "HS256"
        ((("exp", JsonValue.number (((now + refreshLifetime) / jwt.second : Nat) : Int)) ::
          (if true then [("refresh", JsonValue.bool true)] else [])) ++
          [("userId", JsonValue.number (u : Int))])
        ⟨secret, "HS256",
          (("exp", JsonValue.number (((now + refreshLifetime) / jwt.second : Nat) : Int)) ::
            (if true then [("refresh", JsonValue.bool true)] else [])) ++
            [("userId", JsonValue.number (u : Int))]⟩ := rfl
  refine ⟨rfl, ?_, ?_⟩
  · rw [hgen, hparse]
  · rw [ValidateToken, hgen, hparse]
    simp [hvalid, huid, href]

/-- An instance of C3: a refresh token presented one minute after issue. -/
theorem validateToken_rejects_refresh_witness :
    ValidateToken "integration-test-secret" (1700000000 * 1000000000 + 60 * 1000000000)
        (GenerateRefreshToken "integration-test-secret" (1700000000 * 1000000000) ⟨999⟩).1
      = .returned ⟨0⟩ (some "invalid token") :=
  (validateToken_rejects_refresh "integration-test-secret" 999 (1700000000 * 1000000000)
    (1700000000 * 1000000000 + 60 * 1000000000) (by norm_num) (by norm_num) (by norm_num)).2.2

/-- C4: for every user id `u` in the unsigned 32-bit range, every secret and every issue
instant `now` of the `int64` nanosecond clock, `GenerateToken` returns a token with no
error, and `ValidateToken` under the same secret, at every instant `t` before the token's
expiry (the whole second one hour after `now`), returns no error and the payload whose
`UserId` is `u`: the id goes into the JSON number, is decoded as a `float64` and converted
back with `uint32(...)` unchanged. -/
theorem validateToken_roundtrip (secret : String) (u now t : Nat)
    (hu : u < 2 ^ 32) (hnow : now < 2 ^ 63)
    (ht : t < (now + 3600 * 1000000000) / 1000000000 * 1000000000) :
    (GenerateToken secret now ⟨u⟩).2 = none ∧
    ValidateToken secret t (GenerateToken secret now ⟨u⟩).1 = .returned ⟨u⟩ none := by
  obtain ⟨hb, hp⟩ := jwt.unix_bounds now accessLifetime hnow
    (by simp [accessLifetime, jwt.second]) (by simp [accessLifetime, jwt.second])
  obtain ⟨tok, hparse, hvalid, huid, href⟩ := Parse_signed secret t
    ((now + accessLifetime) / jwt.second) u false hb hp (by omega)
    (by simpa [accessLifetime, jwt.second] using ht)
  have hgen : (GenerateToken secret now ⟨u⟩).1 =
      .jws "HS256"
        ((("exp", JsonValue.number (((now + accessLifetime) / jwt.second : Nat) : Int)) ::
          (if false then [("refresh", JsonValue.bool true)] else [])) ++
          [("userId", JsonValue.number (u : Int))])
        ⟨secret, "HS256",
          (("exp", JsonValue.number (((now + accessLifetime) / jwt.second : Nat) : Int)) ::
            (if false then [("refresh", JsonValue.bool true)] else [])) ++
            [("userId", JsonValue.number (u : Int))]⟩ := rfl
  refine ⟨rfl, ?_⟩
  rw [ValidateToken, hgen, hparse]
  simp [hvalid, huid, href, jwt.uint32OfFloat64_natCast u hu]

/-- An instance of C4: the largest 32-bit id, one second before expiry. -/
theorem validateToken_roundtrip_witness :
    ValidateToken "test-secret-key" (1700000000 * 1000000000 + 3599 * 1000000000)
        (GenerateToken "test-secret-key" (1700000000 * 1000000000) ⟨4294967295⟩).1
      = .returned ⟨4294967295⟩ none :=
  (validateToken_roundtrip "test-secret-key" 4294967295 (1700000000 * 1000000000)
    (1700000000 * 1000000000 + 3599 * 1000000000) (by norm_num) (by norm_num) (by norm_num)).2

end jwtUsecase
end Dekamond

namespace Dekamond
namespace jwtUsecase

/-! ## Expiry and the errors of `jwt.Parse` -/

/-- What `jwt.Parse` makes of a token signed with the same secret, carrying an expiry second
and a user id, from its expiry instant on: the token is expired. -/
theorem Parse_signed_expired (secret : String) (t : Nat) (exp u : Nat)
    (hexp : exp < 2 ^ 53) (hpos : 0 < exp) (hu : u < 2 ^ 53) (ht : exp * jwt.second ≤ t) :
    (jwt.Parse secret t
        (.jws "HS256"
          [("exp", JsonValue.number (exp : Int)), ("userId", JsonValue.number (u : Int))]
          ⟨secret, "HS256",
            [("exp", JsonValue.number (exp : Int)),
             ("userId", JsonValue.number (u : Int))]⟩)).2
      = some "token has invalid claims: token is expired" := by
  have he := jwt.float64OfInt_natCast exp hexp
  have hu' := jwt.float64OfInt_natCast u hu
  have hne : ¬ ((exp : Int) = 0) := by omega
  have hlt : ¬ ((t : Int) < (exp : Int) * (jwt.second : Int)) := by
    have : ((exp * jwt.second : Nat) : Int) ≤ (t : Int) := by exact_mod_cast ht
    push_cast at this
    omega
  simp [jwt.Parse, jwt.decodeClaims, jwt.decodeValue, he, hu', jwt.hmacMethods,
    jwt.validateClaims, jwt.numericDate, hne, hlt]
  decide

/-- The access token, written out: the expiry is the whole second of the issue instant
plus 3600, and there is no refresh claim. -/
theorem GenerateToken_eq (secret : String) (u t0 : Nat) :
    GenerateToken secret t0 ⟨u⟩ =
      (.jws "HS256"
        [("exp", JsonValue.number ((t0 / jwt.second + 3600 : Nat) : Int)),
         ("userId", JsonValue.number (u : Int))]
        ⟨secret, "HS256",
          [("exp", JsonValue.number ((t0 / jwt.second + 3600 : Nat) : Int)),
           ("userId", JsonValue.number (u : Int))]⟩, none) := by
  have h : (t0 + accessLifetime) / jwt.second = t0 / jwt.second + 3600 := by
    simp only [accessLifetime, jwt.second]
    omega
  simp only [GenerateToken, jwt.SignedString, jwt.unix, h]

/-- An error of `jwt.Parse` is returned as it is, with the zero payload. -/
theorem ValidateToken_parse_error (secret : String) (now : Nat) (tok : TokenString)
    (e : String) (h : (jwt.Parse secret now tok).2 = some e) :
    ValidateToken secret now tok = .returned ⟨0⟩ (some e) := by
  unfold ValidateToken
  cases hp : jwt.Parse secret now tok with
  | mk token err =>
    rw [hp] at h
    simp only at h
    subst h
    rfl

end jwtUsecase
end Dekamond

namespace Dekamond
namespace jwtUsecase

/-- C11 (as stated, refuted): a token issued 0.7 s into a second is rejected as expired 0.2 s
before one hour has passed since its issue, because its expiry is a whole second. -/
theorem generateToken_expiry_not_issue_plus_hour :
    ¬ (∀ (secret : String) (u t0 t : Nat), u < 2 ^ 32 → t < t0 + 3600 * 1000000000 →
        ValidateToken secret t (GenerateToken secret t0 ⟨u⟩).1 = .returned ⟨u⟩ none) := by
  intro h
  have h1 := h "test-secret-key" 123 1700000000700000000 1700003600500000000
    (by norm_num) (by norm_num)
  revert h1
  decide

/-- C11 (amended): for every 32-bit user id `u` and issue instant `t0` (nanoseconds, on the
`int64` clock), `GenerateToken` returns, with no error, the HS256 token whose claims are
`exp`, the whole second of `t0` plus 3600, and `userId`, with no refresh claim.  That expiry
instant is at most `t0` plus one hour and less than a second before it.  `ValidateToken`
under the same secret returns the payload with `u` at every instant before the expiry
instant, and the error "token has invalid claims: token is expired" with the zero payload
at the expiry instant and at every later one, so at every instant after `t0` plus one
hour. -/
theorem generateToken_expiry (secret : String) (u t0 t : Nat)
    (hu : u < 2 ^ 32) (h0 : t0 < 2 ^ 63) :
    GenerateToken secret t0 ⟨u⟩ =
      (.jws "HS256"
        [("exp", JsonValue.number ((t0 / 1000000000 + 3600 : Nat) : Int)),
         ("userId", JsonValue.number (u : Int))]
        ⟨secret, "HS256",
          [("exp", JsonValue.number ((t0 / 1000000000 + 3600 : Nat) : Int)),
           ("userId", JsonValue.number (u : Int))]⟩, none) ∧
    ((t0 / 1000000000 + 3600) * 1000000000 ≤ t0 + 3600 * 1000000000 ∧
      t0 + 3600 * 1000000000 < (t0 / 1000000000 + 3600) * 1000000000 + 1000000000) ∧
    (t < (t0 / 1000000000 + 3600) * 1000000000 →
      ValidateToken secret t (GenerateToken secret t0 ⟨u⟩).1 = .returned ⟨u⟩ none) ∧
    ((t0 / 1000000000 + 3600) * 1000000000 ≤ t →
      ValidateToken secret t (GenerateToken secret t0 ⟨u⟩).1
        = .returned ⟨0⟩ (some "token has invalid claims: token is expired")) := by
  obtain ⟨e, he⟩ : ∃ e, e = t0 / jwt.second + 3600 := ⟨_, rfl⟩
  have hgen := GenerateToken_eq secret u t0
  rw [← he] at hgen
  have hsec : jwt.second = 1000000000 := rfl
  have he' : e = t0 / 1000000000 + 3600 := by rw [he, hsec]
  have hb : e < 2 ^ 53 := by omega
  have hp : 0 < e := by omega
  rw [← he']
  refine ⟨hgen, by omega, ?_, ?_⟩
  · intro ht
    obtain ⟨tok, hparse, hvalid, huid, href⟩ := Parse_signed secret t e u false hb hp
      (by omega) (by rw [hsec]; exact ht)
    have hparse' : jwt.Parse secret t (GenerateToken secret t0 ⟨u⟩).1 = (tok, none) := by
      rw [hgen]; exact hparse
    rw [ValidateToken, hparse']
    simp [hvalid, huid, href, jwt.uint32OfFloat64_natCast u hu]
  · intro ht
    apply ValidateToken_parse_error
    rw [hgen]
    exact Parse_signed_expired secret t e u hb hp (by omega) (by rw [hsec]; exact ht)

/-- An instance of the amended C11: a token issued 0.7 s into a second, presented at its
expiry second. -/
theorem generateToken_expiry_witness :
    ValidateToken "test-secret-key" 1700003600000000000
        (GenerateToken "test-secret-key" 1700000000700000000 ⟨123⟩).1
      = .returned ⟨0⟩ (some "token has invalid claims: token is expired") :=
  (generateToken_expiry "test-secret-key" 123 1700000000700000000 1700003600000000000
    (by norm_num) (by norm_num)).2.2.2 (by norm_num)

end jwtUsecase
end Dekamond

namespace Dekamond
namespace jwtUsecase

end jwtUsecase
end Dekamond

namespace Dekamond

/-! ## Request validation -/

/-- An empty string has no characters. -/
theorem string_ne_empty_iff (s : String) : s ≠ "" ↔ s.length ≠ 0 := by
  constructor
  · intro h hl
    apply h
    obtain ⟨l⟩ := s
    have hnil : l = [] := List.length_eq_zero.mp hl
    rw [hnil]
  · intro h he
    apply h
    rw [he]
    rfl

/-- The validation passes exactly when no field breaks a rule. -/
theorem ValidateStruct_eq_none (structName : String) (fields : List validator.Field) :
    utils.ValidateStruct structName fields = none ↔ ∀ f ∈ fields, f.failing = none := by
  unfold utils.ValidateStruct
  generalize hg : (fun f : validator.Field =>
    f.failing.map (fun r =>
      "Key: '" ++ structName ++ "." ++ f.name ++ "' Error:Field validation for '" ++ f.name ++
        "' failed on the '" ++ r.tag ++ "' tag")) = g
  have hgn : ∀ f, g f = none ↔ f.failing = none := by
    intro f; rw [← hg]; simp
  have key : List.filterMap g fields = [] ↔ ∀ f ∈ fields, f.failing = none := by
    induction fields with
    | nil => simp
    | cons f fs ih =>
      cases hf : g f with
      | none =>
        rw [List.filterMap_cons_none hf, ih]
        have := (hgn f).mp hf
        simp [this]
      | some e =>
        rw [List.filterMap_cons_some hf]
        have : f.failing ≠ none := fun h => by rw [(hgn f).mpr h] at hf; cases hf
        simp [this]
  cases hl : List.filterMap g fields with
  | nil => simpa [hl] using key.mp hl
  | cons e es =>
    have : ¬ (∀ f ∈ fields, f.failing = none) := fun h => by rw [key.mpr h] at hl; cases hl
    simp [this]

/-- When `ValidateStruct` lets a `LoginDTO` through. -/
theorem ValidateStruct_LoginDTO (req : dto.LoginDTO) :
    utils.ValidateStruct "LoginDTO" req.fields = none ↔
      8 ≤ req.Phone.length ∧ req.Phone.length ≤ 20 := by
  rw [ValidateStruct_eq_none]
  by_cases h0 : req.Phone = ""
  · have : req.Phone.length = 0 := by rw [h0]; rfl
    simp [dto.LoginDTO.fields, validator.Field.failing, validator.Rule.holds, h0, this]
  · by_cases h8 : 8 ≤ req.Phone.length <;> by_cases h20 : req.Phone.length ≤ 20 <;>
      simp [dto.LoginDTO.fields, validator.Field.failing, validator.Rule.holds, h0, h8, h20]

/-- When `ValidateStruct` lets a `VerifyLoginOTP` request through. -/
theorem ValidateStruct_VerifyLoginOTP (body : dto.VerifyLoginOTP) :
    utils.ValidateStruct "VerifyLoginOTP" body.fields = none ↔
      (8 ≤ body.Phone.length ∧ body.Phone.length ≤ 20) ∧
      (body.OTP.length = 5 ∧ validator.isNumeric body.OTP.data = true) := by
  have hp : (validator.Field.failing ⟨"Phone", body.Phone, [.required, .min 8, .max 20]⟩ = none)
      ↔ (8 ≤ body.Phone.length ∧ body.Phone.length ≤ 20) := by
    by_cases h0 : body.Phone = ""
    · have : body.Phone.length = 0 := by rw [h0]; rfl
      simp [validator.Field.failing, validator.Rule.holds, h0, this]
    · by_cases h8 : 8 ≤ body.Phone.length <;> by_cases h20 : body.Phone.length ≤ 20 <;>
        simp [validator.Field.failing, validator.Rule.holds, h0, h8, h20]
  have ho : (validator.Field.failing ⟨"OTP", body.OTP, [.required, .len 5, .numeric]⟩ = none)
      ↔ (body.OTP.length = 5 ∧ validator.isNumeric body.OTP.data = true) := by
    by_cases h0 : body.OTP = ""
    · have : body.OTP.length = 0 := by rw [h0]; rfl
      simp [validator.Field.failing, validator.Rule.holds, h0, this]
    · by_cases h5 : body.OTP.length = 5 <;>
        by_cases hn : validator.isNumeric body.OTP.data = true <;>
        simp [validator.Field.failing, validator.Rule.holds, h0, h5, hn]
  rw [← hp, ← ho, ValidateStruct_eq_none]
  simp [dto.VerifyLoginOTP.fields]

/-- The `numeric` rule holds of the non-empty runs of decimal digits. -/
theorem isNumeric_iff (l : List Char) :
    validator.isNumeric l = true ↔ l ≠ [] ∧ ∀ c ∈ l, c.isDigit = true := by
  cases l with
  | nil => simp [validator.isNumeric, validator.isDigits]
  | cons c r => simp [validator.isNumeric, validator.isDigits]

end Dekamond

namespace Dekamond
namespace authService

/-! ## The auth service: the paths of `VerifyLoginOTP` over recording collaborators -/

/-- Validation fails: nothing is called. -/
theorem VerifyLoginOTP_invalid {σ : Type} (a : authService σ) (s : σ)
    (body : dto.VerifyLoginOTP) (e : String)
    (hv : utils.ValidateStruct "VerifyLoginOTP" body.fields = some e) :
    VerifyLoginOTP a s body = (s, ("", some e)) := by
  simp only [VerifyLoginOTP, hv]

/-- The code is refused: only `VerifyOTP` is called. -/
theorem VerifyLoginOTP_otp_err (m : Mock) (tr : List Call) (body : dto.VerifyLoginOTP)
    (e : String) (hv : utils.ValidateStruct "VerifyLoginOTP" body.fields = none)
    (ho : m.verifyOTP body.Phone body.OTP = some e) :
    VerifyLoginOTP m.service tr body
      = (tr ++ [.VerifyOTP body.Phone body.OTP], ("", some e)) := by
  simp only [VerifyLoginOTP, hv, Mock.service, ho]

/-- The user exists: the token is asked for that user's id. -/
theorem VerifyLoginOTP_found (m : Mock) (tr : List Call) (body : dto.VerifyLoginOTP)
    (user : User) (token : String) (te : GoError)
    (hv : utils.ValidateStruct "VerifyLoginOTP" body.fields = none)
    (ho : m.verifyOTP body.Phone body.OTP = none)
    (hg : m.getUserByPhone body.Phone = (user, none))
    (ht : m.generateToken ⟨user.Id⟩ = (token, te)) :
    VerifyLoginOTP m.service tr body
      = (tr ++ [.VerifyOTP body.Phone body.OTP, .GetUserByPhone body.Phone,
          .GenerateToken ⟨user.Id⟩],
         (match te with
          | none => token
          | some _ => "", te)) := by
  cases te <;>
    simp [VerifyLoginOTP, hv, Mock.service, ho, hg, issueToken, ht]

/-- The lookup fails with an error that is not a not-found error. -/
theorem VerifyLoginOTP_lookup_err (m : Mock) (tr : List Call) (body : dto.VerifyLoginOTP)
    (user : User) (e : String)
    (hv : utils.ValidateStruct "VerifyLoginOTP" body.fields = none)
    (ho : m.verifyOTP body.Phone body.OTP = none)
    (hg : m.getUserByPhone body.Phone = (user, some e))
    (hn : isNotFound e = false) :
    VerifyLoginOTP m.service tr body
      = (tr ++ [.VerifyOTP body.Phone body.OTP, .GetUserByPhone body.Phone],
          ("", some e)) := by
  simp [VerifyLoginOTP, hv, Mock.service, ho, hg, hn]

/-- The lookup fails with a not-found error and the creation fails. -/
theorem VerifyLoginOTP_create_err (m : Mock) (tr : List Call) (body : dto.VerifyLoginOTP)
    (user created : User) (e e2 : String)
    (hv : utils.ValidateStruct "VerifyLoginOTP" body.fields = none)
    (ho : m.verifyOTP body.Phone body.OTP = none)
    (hg : m.getUserByPhone body.Phone = (user, some e))
    (hn : isNotFound e = true)
    (hc : m.createUser { User.zero with Phone := body.Phone } = (created, some e2)) :
    VerifyLoginOTP m.service tr body
      = (tr ++ [.VerifyOTP body.Phone body.OTP, .GetUserByPhone body.Phone,
          .CreateUser { User.zero with Phone := body.Phone }],
          ("", some e2)) := by
  simp [VerifyLoginOTP, hv, Mock.service, ho, hg, hn, hc]

/-- The lookup fails with a not-found error and the user is created. -/
theorem VerifyLoginOTP_created (m : Mock) (tr : List Call) (body : dto.VerifyLoginOTP)
    (user created : User) (e token : String) (te : GoError)
    (hv : utils.ValidateStruct "VerifyLoginOTP" body.fields = none)
    (ho : m.verifyOTP body.Phone body.OTP = none)
    (hg : m.getUserByPhone body.Phone = (user, some e))
    (hn : isNotFound e = true)
    (hc : m.createUser { User.zero with Phone := body.Phone } = (created, none))
    (ht : m.generateToken ⟨created.Id⟩ = (token, te)) :
    VerifyLoginOTP m.service tr body
      = (tr ++ [.VerifyOTP body.Phone body.OTP, .GetUserByPhone body.Phone,
          .CreateUser { User.zero with Phone := body.Phone }, .GenerateToken ⟨created.Id⟩],
         (match te with
          | none => token
          | some _ => "", te)) := by
  cases te <;>
    simp [VerifyLoginOTP, hv, Mock.service, ho, hg, hn, hc, issueToken, ht]

/-- Every run of `VerifyLoginOTP` that passes validation is one of the five paths. -/
theorem VerifyLoginOTP_paths (m : Mock) (tr : List Call) (body : dto.VerifyLoginOTP)
    (hv : utils.ValidateStruct "VerifyLoginOTP" body.fields = none) :
    ∃ (rest : List Call) (token : String) (err : GoError),
      VerifyLoginOTP m.service tr body
        = (tr ++ Call.VerifyOTP body.Phone body.OTP :: rest, (token, err)) ∧
      (err ≠ none → token = "") ∧
      (rest.filter (fun c => match c with
        | .CreateUser _ => true
        | _ => false)).length ≤ 1 := by
  cases ho : m.verifyOTP body.Phone body.OTP with
  | some e =>
    exact ⟨[], "", some e, by rw [VerifyLoginOTP_otp_err m tr body e hv ho], fun _ => rfl,
      by simp⟩
  | none =>
    cases hg : m.getUserByPhone body.Phone with
    | mk user ge =>
      cases ge with
      | none =>
        cases ht : m.generateToken ⟨user.Id⟩ with
        | mk token te =>
          refine ⟨_, _, te, by rw [VerifyLoginOTP_found m tr body user token te hv ho hg ht],
            ?_, by simp⟩
          cases te <;> simp
      | some e =>
        cases hn : isNotFound e with
        | false =>
          exact ⟨_, "", some e,
            by rw [VerifyLoginOTP_lookup_err m tr body user e hv ho hg hn],
            fun _ => rfl, by simp⟩
        | true =>
          cases hc : m.createUser { User.zero with Phone := body.Phone } with
          | mk created ce =>
            cases ce with
            | some e2 =>
              exact ⟨_, "", some e2,
                by rw [VerifyLoginOTP_create_err m tr body user created e e2 hv ho hg hn hc],
                fun _ => rfl, by simp⟩
            | none =>
              cases ht : m.generateToken ⟨created.Id⟩ with
              | mk token te =>
                refine ⟨_, _, te,
                  by rw [VerifyLoginOTP_created m tr body user created e token te hv ho hg hn
                    hc ht], ?_, by simp⟩
                cases te <;> simp

end authService
end Dekamond

namespace Dekamond
namespace authService

/-! ## The auth service: claims on `VerifyLoginOTP` and `LoginRequestOtp` -/

/-- C13: `VerifyLoginOTP` returns the validation error and an empty token, and calls no
collaborator (neither `VerifyOTP` nor the user repository nor the token service), for every
request whose OTP is not exactly five decimal digits, characters '0' to '9', or whose phone
is not 8 to 20 characters long; every request with a five-digit OTP and a phone of 8 to 20
characters passes validation, and `VerifyOTP` is then the first call. -/
theorem verifyLoginOTP_validation (m : Mock) (tr : List Call) (body : dto.VerifyLoginOTP) :
    ((¬ (body.OTP.length = 5 ∧ ∀ c ∈ body.OTP.data, c.isDigit = true) ∨
        ¬ (8 ≤ body.Phone.length ∧ body.Phone.length ≤ 20)) →
      ∃ e, utils.ValidateStruct "VerifyLoginOTP" body.fields = some e ∧
        VerifyLoginOTP m.service tr body = (tr, ("", some e))) ∧
    (((body.OTP.length = 5 ∧ ∀ c ∈ body.OTP.data, c.isDigit = true) ∧
        (8 ≤ body.Phone.length ∧ body.Phone.length ≤ 20)) →
      utils.ValidateStruct "VerifyLoginOTP" body.fields = none ∧
        ∃ rest, (VerifyLoginOTP m.service tr body).1
          = tr ++ Call.VerifyOTP body.Phone body.OTP :: rest) := by
  have hnum : (body.OTP.length = 5 ∧ validator.isNumeric body.OTP.data = true)
      ↔ (body.OTP.length = 5 ∧ ∀ c ∈ body.OTP.data, c.isDigit = true) := by
    rw [isNumeric_iff]
    constructor
    · intro h
      exact ⟨h.1, h.2.2⟩
    · intro h
      refine ⟨h.1, ?_, h.2⟩
      intro hnil
      have := h.1
      simp [String.length, hnil] at this
  refine ⟨?_, ?_⟩
  · intro h
    cases hv : utils.ValidateStruct "VerifyLoginOTP" body.fields with
    | none =>
      have := (ValidateStruct_VerifyLoginOTP body).mp hv
      rcases h with h | h
      · exact absurd (hnum.mp this.2) h
      · exact absurd this.1 h
    | some e => exact ⟨e, rfl, VerifyLoginOTP_invalid _ tr body e hv⟩
  · intro h
    have hv := (ValidateStruct_VerifyLoginOTP body).mpr ⟨h.2, hnum.mpr h.1⟩
    obtain ⟨rest, token, err, hrun, _, _⟩ := VerifyLoginOTP_paths m tr body hv
    exact ⟨hv, rest, by rw [hrun]⟩

/-- An instance of C13: the OTP "+1234" is refused and nothing is called. -/
theorem verifyLoginOTP_validation_witness :
    ∃ e, utils.ValidateStruct "VerifyLoginOTP"
          (dto.VerifyLoginOTP.fields ⟨"+1234567890", "+1234"⟩) = some e ∧
      VerifyLoginOTP Mock.happy.service [] ⟨"+1234567890", "+1234"⟩ = ([], ("", some e)) :=
  (verifyLoginOTP_validation Mock.happy [] ⟨"+1234567890", "+1234"⟩).1 (Or.inl (by decide))

/-- C14: `LoginRequestOtp` returns the validation error and calls none of `GenerateOTP`,
`SaveOTP`, `SendOtpSms` when the phone is empty, shorter than 8 characters or longer than 20
characters; for every phone of 8 to 20 characters validation passes and `GenerateOTP` is the
first call. -/
theorem loginRequestOtp_validation (m : Mock) (tr : List Call) (req : dto.LoginDTO) :
    ((req.Phone = "" ∨ req.Phone.length < 8 ∨ 20 < req.Phone.length) →
      ∃ e, utils.ValidateStruct "LoginDTO" req.fields = some e ∧
        LoginRequestOtp m.service tr req = (tr, some e)) ∧
    ((8 ≤ req.Phone.length ∧ req.Phone.length ≤ 20) →
      utils.ValidateStruct "LoginDTO" req.fields = none ∧
        ∃ rest, (LoginRequestOtp m.service tr req).1 = tr ++ Call.GenerateOTP :: rest) := by
  constructor
  · intro h
    cases hv : utils.ValidateStruct "LoginDTO" req.fields with
    | none =>
      have hlen := (ValidateStruct_LoginDTO req).mp hv
      rcases h with h | h | h
      · have : req.Phone.length = 0 := by rw [h]; rfl
        omega
      · omega
      · omega
    | some e =>
      refine ⟨e, rfl, ?_⟩
      simp only [LoginRequestOtp, hv]
  · intro h
    have hv := (ValidateStruct_LoginDTO req).mpr h
    refine ⟨hv, ?_⟩
    simp only [LoginRequestOtp, hv, Mock.service]
    cases hg : m.generateOTP with
    | mk code ge =>
      cases ge with
      | some e => exact ⟨[], by simp⟩
      | none =>
        cases hs : m.saveOTP req.Phone code with
        | some e => exact ⟨[.SaveOTP req.Phone code], by simp [hs]⟩
        | none =>
          exact ⟨[.SaveOTP req.Phone code, .SendOtpSms req.Phone code], by simp [hs]⟩

/-- An instance of C14: a three-character phone is refused and nothing is called. -/
theorem loginRequestOtp_validation_witness :
    ∃ e, utils.ValidateStruct "LoginDTO" (dto.LoginDTO.fields ⟨"123"⟩) = some e ∧
      LoginRequestOtp Mock.happy.service [] ⟨"123"⟩ = ([], some e) :=
  (loginRequestOtp_validation Mock.happy [] ⟨"123"⟩).1 (Or.inr (Or.inl (by decide)))

/-- C15: for a request that passes validation, `LoginRequestOtp` calls `GenerateOTP`, then
`SaveOTP(phone, code)`, then `SendOtpSms(phone, code)` with the generated code; it stops at
the first call that returns an error and returns that error; and it returns no error iff
all three return none. -/
theorem loginRequestOtp_sequence (m : Mock) (tr : List Call) (req : dto.LoginDTO)
    (hv : utils.ValidateStruct "LoginDTO" req.fields = none) :
    (∀ e, m.generateOTP.2 = some e →
      LoginRequestOtp m.service tr req = (tr ++ [.GenerateOTP], some e)) ∧
    (∀ e, m.generateOTP.2 = none → m.saveOTP req.Phone m.generateOTP.1 = some e →
      LoginRequestOtp m.service tr req
        = (tr ++ [.GenerateOTP, .SaveOTP req.Phone m.generateOTP.1], some e)) ∧
    (m.generateOTP.2 = none → m.saveOTP req.Phone m.generateOTP.1 = none →
      LoginRequestOtp m.service tr req
        = (tr ++ [.GenerateOTP, .SaveOTP req.Phone m.generateOTP.1,
            .SendOtpSms req.Phone m.generateOTP.1],
           m.sendOtpSms req.Phone m.generateOTP.1)) ∧
    ((LoginRequestOtp m.service tr req).2 = none ↔
      (m.generateOTP.2 = none ∧ m.saveOTP req.Phone m.generateOTP.1 = none ∧
        m.sendOtpSms req.Phone m.generateOTP.1 = none)) := by
  cases hg : m.generateOTP with
  | mk code ge =>
    cases ge with
    | some e => simp [LoginRequestOtp, hv, Mock.service, hg]
    | none =>
      cases hs : m.saveOTP req.Phone code with
      | some e => simp [LoginRequestOtp, hv, Mock.service, hg, hs]
      | none => simp [LoginRequestOtp, hv, Mock.service, hg, hs]

/-- An instance of C15: the save fails, so nothing is sent. -/
theorem loginRequestOtp_sequence_witness :
    LoginRequestOtp { Mock.happy with saveOTP := fun _ _ => some "save failed" }.service []
        ⟨"+1234567890"⟩
      = ([.GenerateOTP, .SaveOTP "+1234567890" "12345"], some "save failed") :=
  (loginRequestOtp_sequence { Mock.happy with saveOTP := fun _ _ => some "save failed" } []
    ⟨"+1234567890"⟩ (by decide)).2.1 "save failed" rfl rfl

end authService
end Dekamond

namespace Dekamond
namespace authService

/-- C16: when validation and `VerifyOTP` succeed, `VerifyLoginOTP` returns exactly the token
`GenerateToken` returned for the id of the resolved user.  If `GetUserByPhone` succeeds the
user is the one it returned and `CreateUser` is not called; if it fails with an error whose
text contains "no rows" or, in lower case, "not found", the user is the one returned by
`CreateUser` on the user that has only the phone set.  In every run `CreateUser` is called
at most once. -/
theorem verifyLoginOTP_token (m : Mock) (tr : List Call) (body : dto.VerifyLoginOTP)
    (hv : utils.ValidateStruct "VerifyLoginOTP" body.fields = none)
    (ho : m.verifyOTP body.Phone body.OTP = none) :
    (∀ (user : User) (token : String),
      m.getUserByPhone body.Phone = (user, none) →
      m.generateToken ⟨user.Id⟩ = (token, none) →
      VerifyLoginOTP m.service tr body
        = (tr ++ [.VerifyOTP body.Phone body.OTP, .GetUserByPhone body.Phone,
            .GenerateToken ⟨user.Id⟩], (token, none))) ∧
    (∀ (user created : User) (e token : String),
      m.getUserByPhone body.Phone = (user, some e) →
      (strings.Contains e "no rows" = true ∨
        strings.Contains (strings.ToLower e) "not found" = true) →
      m.createUser ⟨0, body.Phone, 0⟩ = (created, none) →
      m.generateToken ⟨created.Id⟩ = (token, none) →
      VerifyLoginOTP m.service tr body
        = (tr ++ [.VerifyOTP body.Phone body.OTP, .GetUserByPhone body.Phone,
            .CreateUser ⟨0, body.Phone, 0⟩, .GenerateToken ⟨created.Id⟩],
           (token, none))) ∧
    ((VerifyLoginOTP m.service tr body).1.filter (fun c =>
        match c with
        | .CreateUser _ => true
        | _ => false)).length
      ≤ (tr.filter (fun c =>
        match c with
        | .CreateUser _ => true
        | _ => false)).length + 1 := by
  refine ⟨?_, ?_, ?_⟩
  · intro user token hg ht
    rw [VerifyLoginOTP_found m tr body user token none hv ho hg ht]
  · intro user created e token hg hn hc ht
    have hn' : isNotFound e = true := by
      simp only [isNotFound, Bool.or_eq_true]
      exact hn
    rw [VerifyLoginOTP_created m tr body user created e token none hv ho hg hn' hc ht]
    rfl
  · obtain ⟨rest, token, err, hrun, _, hcount⟩ := VerifyLoginOTP_paths m tr body hv
    rw [hrun]
    simp only [List.filter_append, List.length_append, List.filter_cons]
    simpa using hcount

/-- An instance of C16: the lookup answers "user not found" and the user is created. -/
theorem verifyLoginOTP_token_witness :
    VerifyLoginOTP
        { Mock.happy with getUserByPhone := fun _ => (User.zero, some "user not found") }.service
        [] ⟨"+0987654321", "54321"⟩
      = ([.VerifyOTP "+0987654321" "54321", .GetUserByPhone "+0987654321",
          .CreateUser ⟨0, "+0987654321", 0⟩, .GenerateToken ⟨456⟩],
         ("jwt-token-456", none)) :=
  (verifyLoginOTP_token
      { Mock.happy with getUserByPhone := fun _ => (User.zero, some "user not found") } []
      ⟨"+0987654321", "54321"⟩ (by decide) rfl).2.1 User.zero ⟨456, "+0987654321", 2⟩
    "user not found" "jwt-token-456" rfl (Or.inr (by decide)) rfl (by decide)

/-- C17: when validation and `VerifyOTP` succeed and `GetUserByPhone` fails with an error
whose text neither contains "no rows" nor, in lower case, "not found", `VerifyLoginOTP`
returns that error with an empty token, and the calls made are `VerifyOTP` and
`GetUserByPhone` only: neither `CreateUser` nor `GenerateToken` is called. -/
theorem verifyLoginOTP_lookup_failure (m : Mock) (tr : List Call) (body : dto.VerifyLoginOTP)
    (user : User) (e : String)
    (hv : utils.ValidateStruct "VerifyLoginOTP" body.fields = none)
    (ho : m.verifyOTP body.Phone body.OTP = none)
    (hg : m.getUserByPhone body.Phone = (user, some e))
    (h1 : strings.Contains e "no rows" = false)
    (h2 : strings.Contains (strings.ToLower e) "not found" = false) :
    VerifyLoginOTP m.service tr body
      = (tr ++ [.VerifyOTP body.Phone body.OTP, .GetUserByPhone body.Phone],
          ("", some e)) := by
  have hn : isNotFound e = false := by simp [isNotFound, h1, h2]
  exact VerifyLoginOTP_lookup_err m tr body user e hv ho hg hn

/-- An instance of C17: the lookup answers "database connection error". -/
theorem verifyLoginOTP_lookup_failure_witness :
    VerifyLoginOTP
        { Mock.happy with
          getUserByPhone := fun _ => (User.zero, some "database connection error") }.service
        [] ⟨"+1234567890", "12345"⟩
      = ([.VerifyOTP "+1234567890" "12345", .GetUserByPhone "+1234567890"],
          ("", some "database connection error")) :=
  verifyLoginOTP_lookup_failure
    { Mock.happy with
      getUserByPhone := fun _ => (User.zero, some "database connection error") } []
    ⟨"+1234567890", "12345"⟩ User.zero "database connection error" (by decide) rfl rfl
    (by decide) (by decide)

/-- C18: when validation passes and `VerifyOTP` fails, `VerifyLoginOTP` returns that error
with an empty token and `VerifyOTP` is the only call made; and in every run of
`VerifyLoginOTP` that returns an error the token returned is the empty string. -/
theorem verifyLoginOTP_error_paths (m : Mock) (tr : List Call) (body : dto.VerifyLoginOTP) :
    (∀ e, utils.ValidateStruct "VerifyLoginOTP" body.fields = none →
      m.verifyOTP body.Phone body.OTP = some e →
      VerifyLoginOTP m.service tr body
        = (tr ++ [.VerifyOTP body.Phone body.OTP], ("", some e))) ∧
    ((VerifyLoginOTP m.service tr body).2.2 ≠ none →
      (VerifyLoginOTP m.service tr body).2.1 = "") := by
  constructor
  · intro e hv ho
    exact VerifyLoginOTP_otp_err m tr body e hv ho
  · cases hv : utils.ValidateStruct "VerifyLoginOTP" body.fields with
    | some e =>
      rw [VerifyLoginOTP_invalid _ tr body e hv]
      intro _; rfl
    | none =>
      obtain ⟨rest, token, err, hrun, herr, _⟩ := VerifyLoginOTP_paths m tr body hv
      rw [hrun]
      exact herr

/-- An instance of C18: `VerifyOTP` answers "invalid or expired otp". -/
theorem verifyLoginOTP_error_paths_witness :
    VerifyLoginOTP
        { Mock.happy with verifyOTP := fun _ _ => some "invalid or expired otp" }.service
        [] ⟨"+1234567890", "12345"⟩
      = ([.VerifyOTP "+1234567890" "12345"], ("", some "invalid or expired otp")) :=
  (verifyLoginOTP_error_paths
      { Mock.happy with verifyOTP := fun _ _ => some "invalid or expired otp" } []
      ⟨"+1234567890", "12345"⟩).1 "invalid or expired otp" (by decide) rfl

end authService
end Dekamond

namespace Dekamond
namespace strings

/-! ## Trimming -/

/-- Whitespace in front of a text that does not start with whitespace is dropped. -/
theorem dropWhile_isSpace_append (ws core : List Char) (hws : ∀ c ∈ ws, isSpace c = true)
    (hcore : ∀ c, core.head? = some c → isSpace c = false) :
    (ws ++ core).dropWhile isSpace = core := by
  induction ws with
  | nil =>
    cases core with
    | nil => rfl
    | cons c r =>
      have := hcore c rfl
      simp [List.dropWhile, this]
  | cons w ws ih =>
    have hw : isSpace w = true := hws w (by simp)
    simp only [List.cons_append, List.dropWhile, hw]
    exact ih (fun c hc => hws c (by simp [hc]))

/-- A text of whitespace only trims to the empty string. -/
theorem TrimSpace_blank (s : String) (h : ∀ c ∈ s.data, isSpace c = true) :
    TrimSpace s = "" := by
  have h1 : s.data.dropWhile isSpace = [] := by
    have := dropWhile_isSpace_append s.data [] h (by simp)
    simpa using this
  simp only [TrimSpace, h1]
  rfl

/-- Trimming a text wrapped in whitespace gives the text, when the text neither starts
nor ends with whitespace. -/
theorem TrimSpace_wrapped (pre core post : List Char)
    (hpre : ∀ c ∈ pre, isSpace c = true) (hpost : ∀ c ∈ post, isSpace c = true)
    (hhead : ∀ c, core.head? = some c → isSpace c = false)
    (hlast : ∀ c, core.getLast? = some c → isSpace c = false) :
    TrimSpace (String.mk (pre ++ core ++ post)) = String.mk core := by
  cases hcore : core with
  | nil =>
    apply TrimSpace_blank
    intro c hc
    simp only [List.append_nil, List.mem_append] at hc
    rcases hc with hc | hc
    · exact hpre c hc
    · exact hpost c hc
  | cons x xs =>
    rw [← hcore]
    have hne : core ≠ [] := by rw [hcore]; simp
    have h1 : (pre ++ core ++ post).dropWhile isSpace = core ++ post := by
      rw [List.append_assoc]
      apply dropWhile_isSpace_append _ _ hpre
      intro c hc
      apply hhead c
      rw [hcore] at hc ⊢
      simpa using hc
    have h2 : (core ++ post).reverse.dropWhile isSpace = core.reverse := by
      rw [List.reverse_append]
      apply dropWhile_isSpace_append
      · intro c hc
        exact hpost c (by simpa using hc)
      · intro c hc
        apply hlast c
        rw [List.head?_reverse] at hc
        exact hc
    simp only [TrimSpace, h1, h2, List.reverse_reverse]

/-- The letters of "bearer " in either case are not whitespace, except the space, and
lower to themselves. -/
theorem toLowerRune_letter (c l : Char) (hl : l ∈ ['b', 'e', 'a', 'r'])
    (h : c = l ∨ c = l.toUpper) : toLowerRune c = l ∧ isSpace c = false := by
  simp only [List.mem_cons, List.mem_singleton, List.not_mem_nil, or_false] at hl
  rcases hl with rfl | rfl | rfl | rfl <;> rcases h with rfl | rfl <;> decide

end strings
end Dekamond

namespace Dekamond
namespace authService

/-! ## The auth service: `ValidateToken` -/

/-- A blank header: "missing token", and nothing is called. -/
theorem ValidateToken_blank {σ : Type} (a : authService σ) (s : σ) (header : String)
    (h : strings.TrimSpace header = "") :
    ValidateToken a s header = (s, (User.zero, some "missing token")) := by
  simp only [ValidateToken, h, if_true]

/-- A header that is not blank: the token service is called on the token taken from it,
and the user repository only if the token service accepts. -/
theorem ValidateToken_run (m : Mock) (tr : List Call) (header t : String)
    (h1 : strings.TrimSpace header ≠ "")
    (h2 : (if strings.HasPrefix (strings.ToLower (strings.TrimSpace header)) "bearer " then
            strings.TrimSpace (strings.sliceFrom (strings.TrimSpace header) 7)
          else strings.TrimSpace header) = t) :
    ValidateToken m.service tr header =
      (match m.validateToken t with
       | (_, some err) => (tr ++ [.ValidateToken t], (User.zero, some err))
       | (payload, none) =>
         (tr ++ [.ValidateToken t, .GetUserById payload.UserId],
           m.getUserById payload.UserId)) := by
  simp only [ValidateToken, h1, if_false, h2, Mock.service]
  cases hv : m.validateToken t with
  | mk payload err =>
    cases err <;> simp

/-- The first call of a run on a header that is not blank. -/
theorem ValidateToken_first_call (m : Mock) (tr : List Call) (header t : String)
    (h1 : strings.TrimSpace header ≠ "")
    (h2 : (if strings.HasPrefix (strings.ToLower (strings.TrimSpace header)) "bearer " then
            strings.TrimSpace (strings.sliceFrom (strings.TrimSpace header) 7)
          else strings.TrimSpace header) = t) :
    ∃ rest, (ValidateToken m.service tr header).1 = tr ++ Call.ValidateToken t :: rest := by
  rw [ValidateToken_run m tr header t h1 h2]
  cases hv : m.validateToken t with
  | mk payload err =>
    cases err with
    | none => exact ⟨[.GetUserById payload.UserId], by simp⟩
    | some e => exact ⟨[], by simp⟩

/-- C19: for every header that is empty or consists only of whitespace,
`authService.ValidateToken` returns the zero `User` and the error "missing token", and
calls neither the token service nor the user repository. -/
theorem validateToken_missing (m : Mock) (tr : List Call) (header : String)
    (h : ∀ c ∈ header.data, strings.isSpace c = true) :
    ValidateToken m.service tr header = (tr, (⟨0, "", 0⟩, some "missing token")) :=
  ValidateToken_blank _ tr header (strings.TrimSpace_blank header h)

/-- An instance of C19: a header of three spaces. -/
theorem validateToken_missing_witness :
    ValidateToken Mock.happy.service [] "   " = ([], (⟨0, "", 0⟩, some "missing token")) :=
  validateToken_missing Mock.happy [] "   " (by decide)

/-- C20: let `t` be a non-empty token that neither starts nor ends with whitespace.  For
every spelling `B` of "bearer" in upper and lower case letters, every whitespace `pre`
before and `post` behind, and every run of one or more spaces between `B` and `t`, the first
call `authService.ValidateToken` makes is `ValidateToken(t)` on the token service; and when
`t` does not itself start with "bearer " in any letter case, the same holds for the header
that holds `t` alone between `pre` and `post`. -/
theorem validateToken_extracts_token (m : Mock) (tr : List Call) (t : String)
    (B pre post : List Char) (k : Nat)
    (hne : t ≠ "")
    (hhead : ∀ c, t.data.head? = some c → strings.isSpace c = false)
    (hlast : ∀ c, t.data.getLast? = some c → strings.isSpace c = false)
    (hB : List.Forall₂ (fun c l => c = l ∨ c = l.toUpper) B ['b', 'e', 'a', 'r', 'e', 'r'])
    (hpre : ∀ c ∈ pre, strings.isSpace c = true)
    (hpost : ∀ c ∈ post, strings.isSpace c = true) :
    (∃ rest,
      (ValidateToken m.service tr
        (String.mk (pre ++ (B ++ List.replicate (k + 1) ' ' ++ t.data) ++ post))).1
        = tr ++ Call.ValidateToken t :: rest) ∧
    (strings.HasPrefix (strings.ToLower t) "bearer " = false →
      ∃ rest,
        (ValidateToken m.service tr (String.mk (pre ++ t.data ++ post))).1
          = tr ++ Call.ValidateToken t :: rest) := by
  obtain ⟨td⟩ := t
  have htne : td ≠ [] := fun h => hne (by rw [h])
  simp only at hhead hlast
  constructor
  · match B, hB with
    | [b1, b2, b3, b4, b5, b6],
      .cons h1 (.cons h2 (.cons h3 (.cons h4 (.cons h5 (.cons h6 .nil))))) =>
      obtain ⟨l1, s1⟩ := strings.toLowerRune_letter b1 'b' (by simp) h1
      obtain ⟨l2, _⟩ := strings.toLowerRune_letter b2 'e' (by simp) h2
      obtain ⟨l3, _⟩ := strings.toLowerRune_letter b3 'a' (by simp) h3
      obtain ⟨l4, _⟩ := strings.toLowerRune_letter b4 'r' (by simp) h4
      obtain ⟨l5, _⟩ := strings.toLowerRune_letter b5 'e' (by simp) h5
      obtain ⟨l6, _⟩ := strings.toLowerRune_letter b6 'r' (by simp) h6
      have hsp : strings.toLowerRune ' ' = ' ' := by decide
      have htrim : strings.TrimSpace
          (String.mk (pre ++ ([b1, b2, b3, b4, b5, b6] ++ List.replicate (k + 1) ' ' ++ td)
            ++ post))
          = String.mk ([b1, b2, b3, b4, b5, b6] ++ List.replicate (k + 1) ' ' ++ td) := by
        apply strings.TrimSpace_wrapped _ _ _ hpre hpost
        · intro c hc
          simp only [List.cons_append, List.head?_cons, Option.some.injEq] at hc
          rw [← hc]; exact s1
        · intro c hc
          rw [List.getLast?_append_of_ne_nil _ htne] at hc
          exact hlast c hc
      apply ValidateToken_first_call
      · rw [htrim]
        intro h
        have := congrArg String.data h
        simp at this
      · rw [htrim]
        have hpre7 : strings.HasPrefix (strings.ToLower
            (String.mk ([b1, b2, b3, b4, b5, b6] ++ List.replicate (k + 1) ' ' ++ td)))
            "bearer " = true := by
          simp [strings.HasPrefix, strings.ToLower, List.replicate_succ, l1, l2, l3, l4, l5, l6,
            hsp]
        rw [if_pos hpre7]
        have hslice : strings.sliceFrom
            (String.mk ([b1, b2, b3, b4, b5, b6] ++ List.replicate (k + 1) ' ' ++ td)) 7
            = String.mk (List.replicate k ' ' ++ td ++ []) := by
          simp [strings.sliceFrom, List.replicate_succ]
        rw [hslice]
        apply strings.TrimSpace_wrapped _ _ _ _ (by simp) hhead hlast
        intro c hc
        rw [List.eq_of_mem_replicate hc]
        decide
  · intro hnb
    have htrim : strings.TrimSpace (String.mk (pre ++ td ++ post)) = String.mk td :=
      strings.TrimSpace_wrapped _ _ _ hpre hpost hhead hlast
    apply ValidateToken_first_call
    · rw [htrim]; exact hne
    · rw [htrim, hnb]
      simp

/-- An instance of C20: the header "  Bearer   valid-jwt-token  ". -/
theorem validateToken_extracts_token_witness :
    ∃ rest,
      (ValidateToken Mock.happy.service [] "  Bearer   valid-jwt-token  ").1
        = [] ++ Call.ValidateToken "valid-jwt-token" :: rest :=
  (validateToken_extracts_token Mock.happy [] "valid-jwt-token" ['B', 'e', 'a', 'r', 'e', 'r']
    [' ', ' '] [' ', ' '] 2 (by decide) (by decide) (by decide)
    (.cons (by decide) (.cons (by decide) (.cons (by decide) (.cons (by decide)
      (.cons (by decide) (.cons (by decide) .nil))))))
    (by decide) (by decide)).1

end authService
end Dekamond

namespace Dekamond
namespace strings

/-! ## More on trimming and on the "bearer " prefix -/

/-- What is left after dropping leading whitespace does not start with whitespace. -/
theorem head?_dropWhile_isSpace (l : List Char) (c : Char)
    (h : (l.dropWhile isSpace).head? = some c) : isSpace c = false := by
  induction l with
  | nil => simp at h
  | cons x xs ih =>
    by_cases hx : isSpace x = true
    · simp only [List.dropWhile, hx] at h
      exact ih h
    · simp only [Bool.not_eq_true] at hx
      simp only [List.dropWhile, hx, List.head?_cons, Option.some.injEq] at h
      rw [← h]; exact hx

/-- The last character of a non-empty tail of a list is the last character of the list. -/
theorem getLast?_dropWhile (l : List Char) (p : Char → Bool) (h : l.dropWhile p ≠ []) :
    (l.dropWhile p).getLast? = l.getLast? := by
  obtain ⟨pre, hpre⟩ := List.dropWhile_suffix p (l := l)
  conv_rhs => rw [← hpre]
  rw [List.getLast?_append_of_ne_nil _ h]

/-- A trimmed text neither starts nor ends with whitespace. -/
theorem TrimSpace_trimmed (s : String) :
    (∀ c, (TrimSpace s).data.head? = some c → isSpace c = false) ∧
    (∀ c, (TrimSpace s).data.getLast? = some c → isSpace c = false) := by
  simp only [TrimSpace]
  constructor
  · intro c hc
    rw [List.head?_reverse] at hc
    by_cases hne : ((s.data.dropWhile isSpace).reverse.dropWhile isSpace) = []
    · rw [hne] at hc; simp at hc
    · rw [getLast?_dropWhile _ _ hne, List.getLast?_reverse] at hc
      exact head?_dropWhile_isSpace _ _ hc
  · intro c hc
    rw [List.getLast?_reverse] at hc
    exact head?_dropWhile_isSpace _ _ hc

/-- A text trims to the empty string only if it is all whitespace. -/
theorem TrimSpace_eq_empty (s : String) (h : TrimSpace s = "") :
    ∀ c ∈ s.data, isSpace c = true := by
  have h1 : ((s.data.dropWhile isSpace).reverse.dropWhile isSpace).reverse = [] :=
    congrArg String.data h
  have h2 : (s.data.dropWhile isSpace).reverse.dropWhile isSpace = [] := by
    simpa using h1
  have h3 : s.data.dropWhile isSpace = [] := by
    cases hd : s.data.dropWhile isSpace with
    | nil => rfl
    | cons x xs =>
      have hx : isSpace x = false := head?_dropWhile_isSpace s.data x (by rw [hd]; rfl)
      rw [hd, List.dropWhile_eq_nil_iff] at h2
      have := h2 x (by simp)
      rw [hx] at this
      exact absurd this (by decide)
  rw [List.dropWhile_eq_nil_iff] at h3
  exact h3

/-- A character whose lower case is an ASCII character other than `k` and `i` is an ASCII
character itself. -/
theorem toLowerRune_ascii (c : Char) (h : (toLowerRune c).toNat < 128)
    (hk : toLowerRune c ≠ 'k') (hi : toLowerRune c ≠ 'i') : c.toNat < 128 := by
  unfold toLowerRune at h hk hi
  by_cases h1 : c.toNat = 8490
  · simp [h1] at hk
  · by_cases h2 : c.toNat = 304
    · simp [h1, h2] at hi
    · simp only [h1, h2, if_false] at h
      unfold Char.toLower at h
      by_cases h3 : c.toNat ≥ 65 ∧ c.toNat ≤ 90
      · omega
      · simp only [h3, if_false] at h
        exact h

/-- Only the space has the space as its lower case. -/
theorem toLowerRune_space (c : Char) (h : toLowerRune c = ' ') : c = ' ' := by
  unfold toLowerRune at h
  by_cases h1 : c.toNat = 8490
  · simp [h1] at h
  · by_cases h2 : c.toNat = 304
    · simp [h1, h2] at h
    · simp only [h1, h2, if_false] at h
      unfold Char.toLower at h
      by_cases h3 : c.toNat ≥ 65 ∧ c.toNat ≤ 90
      · simp only [h3, and_self, if_true] at h
        obtain ⟨n, hn⟩ : ∃ n, c.toNat = n := ⟨_, rfl⟩
        rw [hn] at h h3
        obtain ⟨h65, h90⟩ := h3
        exfalso
        revert h
        interval_cases n <;> decide
      · simp only [h3, if_false] at h
        exact h

end strings
end Dekamond

namespace Dekamond
namespace strings

/-- A text whose lower case starts with "bearer " consists of seven ASCII characters, the
seventh a space, and a rest. -/
theorem hasPrefix_bearer (s : String) (h : HasPrefix (ToLower s) "bearer " = true) :
    ∃ (p : List Char) (rest : List Char), s.data = p ++ ' ' :: rest ∧ p.length = 6 ∧
      (∀ c ∈ p, c.toNat < 128 ∧ isSpace c = false) := by
  obtain ⟨l⟩ := s
  simp only [HasPrefix, ToLower] at h
  match l, h with
  | [], h => simp [List.isPrefixOf] at h
  | [_], h => simp [List.isPrefixOf] at h
  | [_, _], h => simp [List.isPrefixOf] at h
  | [_, _, _], h => simp [List.isPrefixOf] at h
  | [_, _, _, _], h => simp [List.isPrefixOf] at h
  | [_, _, _, _, _], h => simp [List.isPrefixOf] at h
  | [_, _, _, _, _, _], h => simp [List.isPrefixOf] at h
  | c1 :: c2 :: c3 :: c4 :: c5 :: c6 :: c7 :: rest, h =>
    simp only [List.map_cons, List.isPrefixOf, Bool.and_eq_true, beq_iff_eq] at h
    obtain ⟨h1, h2, h3, h4, h5, h6, h7, _⟩ := h
    have e7 : c7 = ' ' := toLowerRune_space c7 h7.symm
    refine ⟨[c1, c2, c3, c4, c5, c6], rest, by simp [e7], rfl, ?_⟩
    have key : ∀ (c l : Char), l = toLowerRune c → (l = 'b' ∨ l = 'e' ∨ l = 'a' ∨ l = 'r') →
        c.toNat < 128 ∧ isSpace c = false := by
      intro c l hl hcase
      have hasc : c.toNat < 128 := by
        apply toLowerRune_ascii c
        · rw [← hl]; rcases hcase with rfl | rfl | rfl | rfl <;> decide
        · rw [← hl]; rcases hcase with rfl | rfl | rfl | rfl <;> decide
        · rw [← hl]; rcases hcase with rfl | rfl | rfl | rfl <;> decide
      refine ⟨hasc, ?_⟩
      cases hsp : isSpace c with
      | false => rfl
      | true =>
        exfalso
        have hc : c = Char.ofNat c.toNat := (Char.ofNat_toNat c).symm
        obtain ⟨n, hn⟩ : ∃ n, c.toNat = n := ⟨_, rfl⟩
        rw [hn] at hasc hc
        subst hc
        revert hl hsp
        rcases hcase with rfl | rfl | rfl | rfl <;> interval_cases n <;> decide
    intro c hc
    simp only [List.mem_cons, List.mem_singleton, List.not_mem_nil, or_false] at hc
    rcases hc with rfl | rfl | rfl | rfl | rfl | rfl
    · exact key _ _ h1 (by simp)
    · exact key _ _ h2 (by simp)
    · exact key _ _ h3 (by simp)
    · exact key _ _ h4 (by simp)
    · exact key _ _ h5 (by simp)
    · exact key _ _ h6 (by simp)

end strings
end Dekamond

namespace Dekamond
namespace authService

/-! ## The auth service: the token handed to the token service -/

/-- A header with a character that is not whitespace does not trim to the empty string. -/
theorem TrimSpace_ne_empty (header : String)
    (h : ∃ c ∈ header.data, strings.isSpace c = false) : strings.TrimSpace header ≠ "" := by
  intro he
  obtain ⟨c, hc, hs⟩ := h
  have := strings.TrimSpace_eq_empty header he c hc
  rw [hs] at this
  exact absurd this (by decide)

/-- After the "bearer " prefix of a trimmed token there is a text that does not trim to the
empty string. -/
theorem rest_after_bearer (tok : String)
    (hlast : ∀ c, tok.data.getLast? = some c → strings.isSpace c = false)
    (hp : strings.HasPrefix (strings.ToLower tok) "bearer " = true) :
    strings.TrimSpace (strings.sliceFrom tok 7) ≠ "" := by
  obtain ⟨p, rest, hdata, hlen, _⟩ := strings.hasPrefix_bearer tok hp
  have hslice : (strings.sliceFrom tok 7).data = rest := by
    simp only [strings.sliceFrom, hdata]
    have : 7 = p.length + 1 := by omega
    rw [this, List.drop_append, List.drop_succ_cons]
    simp
  cases hr : rest with
  | nil =>
    have hl : tok.data.getLast? = some ' ' := by rw [hdata, hr]; simp
    exact absurd (hlast ' ' hl) (by decide)
  | cons x xs =>
    have hne : rest ≠ [] := by rw [hr]; simp
    obtain ⟨c, hc⟩ : ∃ c, rest.getLast? = some c := by
      cases hg : rest.getLast? with
      | none => exact absurd (List.getLast?_eq_none_iff.mp hg) hne
      | some c => exact ⟨c, rfl⟩
    have hl : tok.data.getLast? = some c := by
      rw [hdata, ← hc]
      have : p ++ ' ' :: rest = (p ++ [' ']) ++ rest := by simp
      rw [this, List.getLast?_append_of_ne_nil _ hne]
    have hcs := hlast c hl
    intro he
    have hall := strings.TrimSpace_eq_empty _ he c
      (by rw [hslice]; exact List.mem_of_getLast?_eq_some hc)
    rw [hcs] at hall
    exact absurd hall (by decide)

/-- The token handed to the token service for a header that is not blank is not empty and
neither starts nor ends with whitespace. -/
theorem extracted_trimmed (header : String) (hne : strings.TrimSpace header ≠ "") :
    ∃ t : String,
      (if strings.HasPrefix (strings.ToLower (strings.TrimSpace header)) "bearer " then
        strings.TrimSpace (strings.sliceFrom (strings.TrimSpace header) 7)
      else strings.TrimSpace header) = t ∧
      t ≠ "" ∧
      (∀ c, t.data.head? = some c → strings.isSpace c = false) ∧
      (∀ c, t.data.getLast? = some c → strings.isSpace c = false) := by
  by_cases hp : strings.HasPrefix (strings.ToLower (strings.TrimSpace header)) "bearer " = true
  · refine ⟨_, rfl, ?_, ?_⟩
    · rw [if_pos hp]
      exact rest_after_bearer _ (strings.TrimSpace_trimmed header).2 hp
    · rw [if_pos hp]
      exact strings.TrimSpace_trimmed _
  · refine ⟨_, rfl, ?_, ?_⟩
    · rw [if_neg hp]; exact hne
    · rw [if_neg hp]
      exact strings.TrimSpace_trimmed _

end authService
end Dekamond

namespace Dekamond
namespace authService

/-- C21 (as stated, refuted): for the header "Bearer   abc123", with three spaces after
"Bearer", the token service receives "abc123", not a string that begins with the two
leftover spaces. -/
theorem validateToken_trims_after_bearer :
    (ValidateToken Mock.happy.service [] "Bearer   abc123").1
      = [.ValidateToken "abc123", .GetUserById 123] ∧
    (ValidateToken Mock.happy.service [] "Bearer   abc123").1
      ≠ [.ValidateToken "  abc123", .GetUserById 123] := by
  constructor <;> decide

/-- C21 (amended): when the trimmed header starts with "bearer " in any letter case, the
seven-character prefix is removed and the rest is trimmed again: the token service is
called with `TrimSpace` of the rest, which does not begin (or end) with whitespace, however
many spaces stood between "Bearer" and the token. -/
theorem validateToken_bearer_rest_trimmed (m : Mock) (tr : List Call) (header : String)
    (hp : strings.HasPrefix (strings.ToLower (strings.TrimSpace header)) "bearer " = true) :
    (∃ rest, (ValidateToken m.service tr header).1
      = tr ++ Call.ValidateToken
          (strings.TrimSpace (strings.sliceFrom (strings.TrimSpace header) 7)) :: rest) ∧
    (∀ c, (strings.TrimSpace (strings.sliceFrom (strings.TrimSpace header) 7)).data.head?
      = some c → strings.isSpace c = false) ∧
    (∀ c, (strings.TrimSpace (strings.sliceFrom (strings.TrimSpace header) 7)).data.getLast?
      = some c → strings.isSpace c = false) := by
  have hne : strings.TrimSpace header ≠ "" := by
    intro he
    rw [he] at hp
    exact absurd hp (by decide)
  refine ⟨?_, (strings.TrimSpace_trimmed _).1, (strings.TrimSpace_trimmed _).2⟩
  apply ValidateToken_first_call m tr header _ hne
  rw [if_pos hp]

/-- An instance of the amended C21: the header "Bearer   abc123". -/
theorem validateToken_bearer_rest_trimmed_witness :
    ∃ rest, (ValidateToken Mock.happy.service [] "Bearer   abc123").1
      = [] ++ Call.ValidateToken
          (strings.TrimSpace (strings.sliceFrom (strings.TrimSpace "Bearer   abc123") 7))
          :: rest :=
  (validateToken_bearer_rest_trimmed Mock.happy [] "Bearer   abc123" (by decide)).1

/-- C22: for a header that is not blank, `authService.ValidateToken` calls the token
service on the token `t` extracted from the header: the trimmed header, or, when the
trimmed header starts with "bearer " in any letter case, the trimmed rest after those seven
characters.  If the token service returns an error for `t`, that error is returned with
the zero `User` and the user repository is not called; if it returns the payload `p` with
no error, `GetUserById(p.UserId)` is called and its result is returned as it is, user and
error alike.  The repository's `GetUserById` returns the zero `User` whenever it returns an
error. -/
theorem validateToken_delegates (m : Mock) (tr : List Call) (header t : String)
    (hnb : ∃ c ∈ header.data, strings.isSpace c = false)
    (ht : t = if strings.HasPrefix (strings.ToLower (strings.TrimSpace header)) "bearer " = true
      then strings.TrimSpace (strings.sliceFrom (strings.TrimSpace header) 7)
      else strings.TrimSpace header) :
    (∀ (p : JwtPayload) (e : String), m.validateToken t = (p, some e) →
      ValidateToken m.service tr header
        = (tr ++ [.ValidateToken t], (⟨0, "", 0⟩, some e))) ∧
    (∀ p : JwtPayload, m.validateToken t = (p, none) →
      ValidateToken m.service tr header
        = (tr ++ [.ValidateToken t, .GetUserById p.UserId], m.getUserById p.UserId)) ∧
    (∀ row, (userRepository.GetUserById row).2 ≠ none →
      (userRepository.GetUserById row).1 = ⟨0, "", 0⟩) := by
  have hne := TrimSpace_ne_empty header hnb
  refine ⟨?_, ?_, ?_⟩
  · intro p e hv
    rw [ValidateToken_run m tr header t hne ht.symm, hv]
    rfl
  · intro p hv
    rw [ValidateToken_run m tr header t hne ht.symm, hv]
  · intro row h
    cases row with
    | error err => rfl
    | ok r =>
      obtain ⟨id32, phone, createdAt⟩ := r
      simp [userRepository.GetUserById] at h

/-- An instance of C22: the header "Bearer valid-jwt-token"; the token service accepts the
token "valid-jwt-token" with the user id 123 and the lookup fails. -/
theorem validateToken_delegates_witness :
    ValidateToken
        { Mock.happy with getUserById := fun _ => (User.zero, some "user not found") }.service
        [] "Bearer valid-jwt-token"
      = ([] ++ [.ValidateToken "valid-jwt-token", .GetUserById 123],
          (User.zero, some "user not found")) :=
  (validateToken_delegates
    { Mock.happy with getUserById := fun _ => (User.zero, some "user not found") } []
    "Bearer valid-jwt-token" "valid-jwt-token" ⟨'B', by decide, by decide⟩ (by decide)).2.1
    ⟨123⟩ rfl

/-- C29: in `authService.ValidateToken`, whenever the prefix test succeeds the trimmed
header has at least seven characters and its first seven are ASCII, one byte each, so the
slice `token[7:]` is in range; every token handed to the token service is non-empty and
neither starts nor ends with whitespace; and the headers "Bearer" and "Bearer   " are
handed on as "Bearer". -/
theorem validateToken_argument_trimmed (m : Mock) (header : String) :
    (strings.HasPrefix (strings.ToLower (strings.TrimSpace header)) "bearer " = true →
      7 ≤ (strings.TrimSpace header).length ∧
      ∀ c ∈ (strings.TrimSpace header).data.take 7, c.toNat < 128) ∧
    (∀ t : String, Call.ValidateToken t ∈ (ValidateToken m.service [] header).1 →
      t ≠ "" ∧
      (∀ c, t.data.head? = some c → strings.isSpace c = false) ∧
      (∀ c, t.data.getLast? = some c → strings.isSpace c = false)) ∧
    (ValidateToken m.service [] "Bearer").1.head? = some (.ValidateToken "Bearer") ∧
    (ValidateToken m.service [] "Bearer   ").1.head? = some (.ValidateToken "Bearer") := by
  refine ⟨?_, ?_, ?_, ?_⟩
  · intro hp
    obtain ⟨p, rest, hdata, hlen, hasc⟩ := strings.hasPrefix_bearer _ hp
    constructor
    · simp only [String.length, hdata, List.length_append, List.length_cons]
      omega
    · intro c hc
      rw [hdata] at hc
      have h7 : (p ++ ' ' :: rest).take 7 = p ++ [' '] := by
        have : 7 = p.length + 1 := by omega
        rw [this, List.take_append, List.take_succ_cons]
        simp
      rw [h7] at hc
      simp only [List.mem_append, List.mem_singleton] at hc
      rcases hc with hc | rfl
      · exact (hasc c hc).1
      · decide
  · intro t ht
    by_cases hb : strings.TrimSpace header = ""
    · rw [ValidateToken_blank _ [] header hb] at ht
      simp at ht
    · obtain ⟨t0, ht0, hprops⟩ := extracted_trimmed header hb
      rw [ValidateToken_run m [] header t0 hb ht0] at ht
      cases hv : m.validateToken t0 with
      | mk p err =>
        rw [hv] at ht
        cases err with
        | none =>
          simp at ht
          rw [ht]; exact hprops
        | some e =>
          simp at ht
          rw [ht]; exact hprops
  · obtain ⟨rest, h⟩ := ValidateToken_first_call m [] "Bearer" "Bearer" (by decide) (by decide)
    rw [h]; rfl
  · obtain ⟨rest, h⟩ := ValidateToken_first_call m [] "Bearer   " "Bearer" (by decide)
      (by decide)
    rw [h]; rfl

end authService
end Dekamond

namespace Dekamond

/-- An instance of C29: the header "Bearer   " is handed on as "Bearer". -/
theorem authService.validateToken_argument_trimmed_witness :
    (authService.ValidateToken Mock.happy.service [] "Bearer   ").1.head?
      = some (.ValidateToken "Bearer") :=
  (authService.validateToken_argument_trimmed Mock.happy "Bearer   ").2.2.2

namespace authGuard

/-! ## The guard -/

/-- C23: `JwtGuard` validates the `Authorization` header.  If `ValidateToken` returns an
error, whatever it is, the response becomes status 401 with the empty JSON object as body,
the chain is aborted, the rest of the chain is not run and the values set on the context
are as before (no "user" is added).  If it returns a user with no error, the guard stores
that user under the key "user", writes no response and does not abort, and hands the
context to the rest of the chain. -/
theorem jwtGuard_outcomes (validateToken : String → User × GoError)
    (next : GinContext → GinContext) (c : GinContext) :
    (∀ (u : User) (e : String), validateToken (c.headers "Authorization") = (u, some e) →
      JwtGuard validateToken next c
        = { headers := c.headers, response := some (401, "\x7b\x7d"), aborted := true,
            keys := c.keys }) ∧
    (∀ u : User, validateToken (c.headers "Authorization") = (u, none) →
      JwtGuard validateToken next c = next (c.Set "user" u) ∧
      (c.Set "user" u).keys "user" = some u ∧
      (c.Set "user" u).response = c.response ∧
      (c.Set "user" u).aborted = c.aborted) := by
  constructor
  · intro u e h
    simp [JwtGuard, GinContext.GetHeader, h, GinContext.JSONEmpty, GinContext.Abort,
      StatusUnauthorized]
  · intro u h
    simp [JwtGuard, GinContext.GetHeader, h, GinContext.Set]

/-- An instance of C23: a request without credentials is answered 401 and the handler
behind the guard is not run. -/
theorem jwtGuard_outcomes_witness :
    JwtGuard (fun _ => (User.zero, some "missing token"))
        (fun c => { c with response := some (200, "profile") })
        ⟨fun _ => "", none, false, fun _ => none⟩
      = { headers := fun _ => "", response := some (401, "\x7b\x7d"), aborted := true,
          keys := fun _ => none } :=
  (jwtGuard_outcomes (fun _ => (User.zero, some "missing token"))
    (fun c => { c with response := some (200, "profile") })
    ⟨fun _ => "", none, false, fun _ => none⟩).1 User.zero "missing token" rfl

end authGuard

namespace usersUsecase

/-! ## Pagination -/

/-- C24 (as stated, refuted): for page 2147483649 and limit 2 the product
`(page - 1) * limit` is `2 ^ 32`, and the repository is called with skip 0. -/
theorem getAllUsers_skip_wraps :
    (GetAllUsers (fun (s : Unit) (skip limit : Nat) (_ : Option String) (_ _ : Option Nat) =>
        (s, (skip, limit))) () 2147483649 2 none none none).2 = (0, 2) ∧
    (2147483649 - 1) * 2 ≠ 0 := by
  constructor <;> decide

/-- C24 (amended): for every `uint32` page and limit, `GetAllUsers` calls the repository
once, with limit' = 10 if limit = 0 and limit otherwise, with
skip = ((page' - 1) * limit') mod 2 ^ 32 where page' = 1 if page = 0 and page otherwise, and
with the three filters unchanged, and it returns what the repository returned; the skip
equals `(page' - 1) * limit'` whenever that product is below 2 ^ 32. -/
theorem getAllUsers_pagination {σ ρ : Type}
    (repo : σ → Nat → Nat → Option String → Option Nat → Option Nat → σ × ρ)
    (s : σ) (page limit : Nat) (phoneSearchTerm : Option String)
    (creationFrom creationTo : Option Nat)
    (hp : page < 2 ^ 32) :
    GetAllUsers repo s page limit phoneSearchTerm creationFrom creationTo
      = repo s
          ((((if page = 0 then 1 else page) - 1) * (if limit = 0 then 10 else limit)) % 2 ^ 32)
          (if limit = 0 then 10 else limit) phoneSearchTerm creationFrom creationTo ∧
    (((if page = 0 then 1 else page) - 1) * (if limit = 0 then 10 else limit) < 2 ^ 32 →
      GetAllUsers repo s page limit phoneSearchTerm creationFrom creationTo
        = repo s (((if page = 0 then 1 else page) - 1) * (if limit = 0 then 10 else limit))
            (if limit = 0 then 10 else limit) phoneSearchTerm creationFrom creationTo) := by
  obtain ⟨p, hpd⟩ : ∃ p, p = (if page = 0 then 1 else page) := ⟨_, rfl⟩
  obtain ⟨l, hld⟩ : ∃ l, l = (if limit = 0 then 10 else limit) := ⟨_, rfl⟩
  have hp1 : 1 ≤ p := by rw [hpd]; split <;> omega
  have hp2 : p < 2 ^ 32 := by rw [hpd]; split <;> omega
  have hsub : wrapUint32 ((p : Int) - 1) = p - 1 := by
    unfold wrapUint32
    have h1 : ((p : Int) - 1) = ((p - 1 : Nat) : Int) := by omega
    rw [h1]
    have h2 : ((p - 1 : Nat) : Int) % 2 ^ 32 = ((p - 1 : Nat) : Int) := by
      apply Int.emod_eq_of_lt <;> omega
    rw [h2, Int.toNat_ofNat]
  have hmul : ∀ n : Nat, wrapUint32 ((n : Nat) : Int) = n % 2 ^ 32 := by
    intro n
    unfold wrapUint32
    have : ((n : Int) % 2 ^ 32) = ((n % 2 ^ 32 : Nat) : Int) := by
      push_cast; rfl
    rw [this, Int.toNat_ofNat]
  have hrun : GetAllUsers repo s page limit phoneSearchTerm creationFrom creationTo
      = repo s (((p - 1) * l) % 2 ^ 32) l phoneSearchTerm creationFrom creationTo := by
    simp only [GetAllUsers, ← hpd, ← hld, hsub, hmul]
  rw [← hpd, ← hld]
  refine ⟨hrun, ?_⟩
  intro hlt
  rw [hrun, Nat.mod_eq_of_lt hlt]

/-- An instance of the amended C24: page 5 with limit 3 skips 12. -/
theorem getAllUsers_pagination_witness :
    GetAllUsers (fun (s : Unit) (skip limit : Nat) (_ : Option String) (_ _ : Option Nat) =>
        (s, (skip, limit))) () 5 3 none none none = ((), (12, 3)) :=
  ((getAllUsers_pagination (fun (s : Unit) (skip limit : Nat) (_ : Option String)
      (_ _ : Option Nat) => (s, (skip, limit))) () 5 3 none none none
    (by norm_num)).2 (by norm_num)).trans rfl

end usersUsecase
end Dekamond

namespace Dekamond
namespace userRepository

/-! ## The query of `GetAllUsers` -/

/-- A search term that is nil or empty adds no condition and no argument. -/
theorem filters_no_term (term : Option String) (h : term = none ∨ term = some "")
    (creationFrom creationTo : Option Nat) :
    filters term creationFrom creationTo = filters none creationFrom creationTo := by
  rcases h with rfl | rfl
  · rfl
  · simp [filters]

/-- The conditions, arguments and next index with a search term that is not empty. -/
theorem filters_term (t : String) (ht : t ≠ "") (f o : Nat) :
    filters (some t) none none
      = (["phone ILIKE $1"], [.text ("%" ++ t ++ "%")], 2) ∧
    filters (some t) (some f) none
      = (["phone ILIKE $1", "created_at >= $2"], [.text ("%" ++ t ++ "%"), .time f], 3) ∧
    filters (some t) none (some o)
      = (["phone ILIKE $1", "created_at <= $2"], [.text ("%" ++ t ++ "%"), .time o], 3) ∧
    filters (some t) (some f) (some o)
      = (["phone ILIKE $1", "created_at >= $2", "created_at <= $3"],
          [.text ("%" ++ t ++ "%"), .time f, .time o], 4) := by
  refine ⟨?_, ?_, ?_, ?_⟩ <;>
  · simp only [filters, ne_eq, ht, not_false_eq_true, if_true, List.nil_append,
      List.cons_append, List.singleton_append]
    rfl

/-- The conditions, arguments and next index without a search term. -/
theorem filters_none (f o : Nat) :
    filters none none none = ([], [], 1) ∧
    filters none (some f) none = (["created_at >= $1"], [.time f], 2) ∧
    filters none none (some o) = (["created_at <= $1"], [.time o], 2) ∧
    filters none (some f) (some o)
      = (["created_at >= $1", "created_at <= $2"], [.time f, .time o], 3) := by
  refine ⟨rfl, ?_, ?_, ?_⟩ <;>
  · simp only [filters, List.nil_append, List.cons_append, List.singleton_append]
    rfl

/-- The query with a search term that is not empty, for each combination of the dates. -/
theorem buildQuery_term (skip limit : Nat) (t : String) (ht : t ≠ "") (f o : Nat) :
    buildQuery skip limit (some t) none none
      = ("SELECT id, phone, created_at FROM users WHERE phone ILIKE $1" ++
          " ORDER BY id ASC OFFSET $2 LIMIT $3",
         [.text ("%" ++ t ++ "%"), .int64 skip, .int64 limit]) ∧
    buildQuery skip limit (some t) (some f) none
      = ("SELECT id, phone, created_at FROM users WHERE phone ILIKE $1" ++
          " AND created_at >= $2 ORDER BY id ASC OFFSET $3 LIMIT $4",
         [.text ("%" ++ t ++ "%"), .time f, .int64 skip, .int64 limit]) ∧
    buildQuery skip limit (some t) none (some o)
      = ("SELECT id, phone, created_at FROM users WHERE phone ILIKE $1" ++
          " AND created_at <= $2 ORDER BY id ASC OFFSET $3 LIMIT $4",
         [.text ("%" ++ t ++ "%"), .time o, .int64 skip, .int64 limit]) ∧
    buildQuery skip limit (some t) (some f) (some o)
      = ("SELECT id, phone, created_at FROM users WHERE phone ILIKE $1" ++
          " AND created_at >= $2 AND created_at <= $3 ORDER BY id ASC OFFSET $4 LIMIT $5",
         [.text ("%" ++ t ++ "%"), .time f, .time o, .int64 skip, .int64 limit]) := by
  obtain ⟨h1, h2, h3, h4⟩ := filters_term t ht f o
  refine ⟨?_, ?_, ?_, ?_⟩
  · unfold buildQuery; rw [h1]; rfl
  · unfold buildQuery; rw [h2]; rfl
  · unfold buildQuery; rw [h3]; rfl
  · unfold buildQuery; rw [h4]; rfl

/-- The query without a search term (nil or empty), for each combination of the dates. -/
theorem buildQuery_no_term (skip limit : Nat) (term : Option String)
    (h : term = none ∨ term = some "") (f o : Nat) :
    buildQuery skip limit term none none
      = ("SELECT id, phone, created_at FROM users ORDER BY id ASC OFFSET $1 LIMIT $2",
         [.int64 skip, .int64 limit]) ∧
    buildQuery skip limit term (some f) none
      = ("SELECT id, phone, created_at FROM users WHERE created_at >= $1" ++
          " ORDER BY id ASC OFFSET $2 LIMIT $3",
         [.time f, .int64 skip, .int64 limit]) ∧
    buildQuery skip limit term none (some o)
      = ("SELECT id, phone, created_at FROM users WHERE created_at <= $1" ++
          " ORDER BY id ASC OFFSET $2 LIMIT $3",
         [.time o, .int64 skip, .int64 limit]) ∧
    buildQuery skip limit term (some f) (some o)
      = ("SELECT id, phone, created_at FROM users WHERE created_at >= $1" ++
          " AND created_at <= $2 ORDER BY id ASC OFFSET $3 LIMIT $4",
         [.time f, .time o, .int64 skip, .int64 limit]) := by
  obtain ⟨h1, h2, h3, h4⟩ := filters_none f o
  refine ⟨?_, ?_, ?_, ?_⟩
  · unfold buildQuery; rw [filters_no_term term h, h1]; rfl
  · unfold buildQuery; rw [filters_no_term term h, h2]; rfl
  · unfold buildQuery; rw [filters_no_term term h, h3]; rfl
  · unfold buildQuery; rw [filters_no_term term h, h4]; rfl

end userRepository
end Dekamond

namespace Dekamond
namespace userRepository

/-- The properties of one query: a closed text and its number of arguments. -/
theorem query_props (text : String) (args : List Arg) (k : Nat) (hk : args.length = k)
    (h1 : placeholdersOf text.data = List.range' 1 k)
    (h2 : occurrences text.data " WHERE ".data = if k = 2 then 0 else 1)
    (h3 : occurrences text.data " AND ".data = k - 3)
    (h4 : strings.Contains text " ORDER BY id ASC" = true) :
    placeholdersOf (text, args).1.data = List.range' 1 (text, args).2.length ∧
    occurrences (text, args).1.data " WHERE ".data
      = (if (text, args).2.length = 2 then 0 else 1) ∧
    occurrences (text, args).1.data " AND ".data = (text, args).2.length - 3 ∧
    strings.Contains (text, args).1 " ORDER BY id ASC" = true := by
  simp only [hk]
  exact ⟨h1, h2, h3, h4⟩

/-- The two cases of a search term: it adds no filter, or it is a non-empty text. -/
theorem term_cases (term : Option String) :
    (term = none ∨ term = some "") ∨ ∃ t, term = some t ∧ t ≠ "" := by
  cases term with
  | none => exact Or.inl (Or.inl rfl)
  | some t =>
    by_cases ht : t = ""
    · exact Or.inl (Or.inr (by rw [ht]))
    · exact Or.inr ⟨t, rfl, ht⟩

/-- The arguments of the query: the filters' values in order, then skip and limit. -/
theorem buildQuery_args (skip limit : Nat) (term : Option String) (cf ct : Option Nat) :
    (buildQuery skip limit term cf ct).2
      = (match term with
          | some t => if t = "" then [] else [Arg.text ("%" ++ t ++ "%")]
          | none => []) ++
        (match cf with
          | some f => [Arg.time f]
          | none => []) ++
        (match ct with
          | some o => [Arg.time o]
          | none => []) ++
        [Arg.int64 skip, Arg.int64 limit] := by
  rcases term_cases term with h | ⟨t, rfl, ht⟩
  · have e : (match term with
        | some t => if t = "" then [] else [Arg.text ("%" ++ t ++ "%")]
        | none => []) = [] := by
      rcases h with rfl | rfl <;> simp
    rw [e]
    cases cf with
    | none =>
      cases ct with
      | none => rw [(buildQuery_no_term skip limit term h 0 0).1]; rfl
      | some o => rw [(buildQuery_no_term skip limit term h 0 o).2.2.1]; rfl
    | some f =>
      cases ct with
      | none => rw [(buildQuery_no_term skip limit term h f 0).2.1]; rfl
      | some o => rw [(buildQuery_no_term skip limit term h f o).2.2.2]; rfl
  · have e : (match some t with
        | some t => if t = "" then [] else [Arg.text ("%" ++ t ++ "%")]
        | none => []) = [Arg.text ("%" ++ t ++ "%")] := by
      simp [ht]
    rw [e]
    cases cf with
    | none =>
      cases ct with
      | none => rw [(buildQuery_term skip limit t ht 0 0).1]; rfl
      | some o => rw [(buildQuery_term skip limit t ht 0 o).2.2.1]; rfl
    | some f =>
      cases ct with
      | none => rw [(buildQuery_term skip limit t ht f 0).2.1]; rfl
      | some o => rw [(buildQuery_term skip limit t ht f o).2.2.2]; rfl

set_option maxRecDepth 8000 in
/-- C30: the query `GetAllUsers` builds, for every search term, pair of dates, skip and
limit.  The placeholders in the text are `$1` to `$k`, each once and in increasing order,
where `k` is the number of arguments; the arguments are the search term wrapped in `%` (if
it is neither nil nor empty), then the from date, then the to date (each if given), then
the skip and the limit; `WHERE` occurs once, and not at all when no filter applies; `AND`
occurs once less than there are filters; the text contains ` ORDER BY id ASC`.  The eight
texts are given in full, with the argument that belongs to each placeholder. -/
theorem getAllUsers_query (skip limit : Nat) (term : Option String) (cf ct : Option Nat) :
    (placeholdersOf (buildQuery skip limit term cf ct).1.data
        = List.range' 1 (buildQuery skip limit term cf ct).2.length ∧
      occurrences (buildQuery skip limit term cf ct).1.data " WHERE ".data
        = (if (buildQuery skip limit term cf ct).2.length = 2 then 0 else 1) ∧
      occurrences (buildQuery skip limit term cf ct).1.data " AND ".data
        = (buildQuery skip limit term cf ct).2.length - 3 ∧
      strings.Contains (buildQuery skip limit term cf ct).1 " ORDER BY id ASC" = true) ∧
    (buildQuery skip limit term cf ct).2
      = (match term with
          | some t => if t = "" then [] else [Arg.text ("%" ++ t ++ "%")]
          | none => []) ++
        (match cf with
          | some f => [Arg.time f]
          | none => []) ++
        (match ct with
          | some o => [Arg.time o]
          | none => []) ++
        [Arg.int64 skip, Arg.int64 limit] ∧
    (∀ (t : String) (f o : Nat), t ≠ "" →
      buildQuery skip limit (some t) none none
        = ("SELECT id, phone, created_at FROM users WHERE phone ILIKE $1" ++
            " ORDER BY id ASC OFFSET $2 LIMIT $3",
           [.text ("%" ++ t ++ "%"), .int64 skip, .int64 limit]) ∧
      buildQuery skip limit (some t) (some f) none
        = ("SELECT id, phone, created_at FROM users WHERE phone ILIKE $1" ++
            " AND created_at >= $2 ORDER BY id ASC OFFSET $3 LIMIT $4",
           [.text ("%" ++ t ++ "%"), .time f, .int64 skip, .int64 limit]) ∧
      buildQuery skip limit (some t) none (some o)
        = ("SELECT id, phone, created_at FROM users WHERE phone ILIKE $1" ++
            " AND created_at <= $2 ORDER BY id ASC OFFSET $3 LIMIT $4",
           [.text ("%" ++ t ++ "%"), .time o, .int64 skip, .int64 limit]) ∧
      buildQuery skip limit (some t) (some f) (some o)
        = ("SELECT id, phone, created_at FROM users WHERE phone ILIKE $1" ++
            " AND created_at >= $2 AND created_at <= $3 ORDER BY id ASC OFFSET $4 LIMIT $5",
           [.text ("%" ++ t ++ "%"), .time f, .time o, .int64 skip, .int64 limit])) ∧
    (∀ (noTerm : Option String) (f o : Nat), (noTerm = none ∨ noTerm = some "") →
      buildQuery skip limit noTerm none none
        = ("SELECT id, phone, created_at FROM users ORDER BY id ASC OFFSET $1 LIMIT $2",
           [.int64 skip, .int64 limit]) ∧
      buildQuery skip limit noTerm (some f) none
        = ("SELECT id, phone, created_at FROM users WHERE created_at >= $1" ++
            " ORDER BY id ASC OFFSET $2 LIMIT $3",
           [.time f, .int64 skip, .int64 limit]) ∧
      buildQuery skip limit noTerm none (some o)
        = ("SELECT id, phone, created_at FROM users WHERE created_at <= $1" ++
            " ORDER BY id ASC OFFSET $2 LIMIT $3",
           [.time o, .int64 skip, .int64 limit]) ∧
      buildQuery skip limit noTerm (some f) (some o)
        = ("SELECT id, phone, created_at FROM users WHERE created_at >= $1" ++
            " AND created_at <= $2 ORDER BY id ASC OFFSET $3 LIMIT $4",
           [.time f, .time o, .int64 skip, .int64 limit])) := by
  refine ⟨?_, ?_, fun t f o ht => buildQuery_term skip limit t ht f o,
    fun noTerm f o h => buildQuery_no_term skip limit noTerm h f o⟩
  · rcases term_cases term with h | ⟨t, rfl, ht⟩
    · cases cf with
      | none =>
        cases ct with
        | none =>
          rw [(buildQuery_no_term skip limit term h 0 0).1]
          exact query_props _ _ 2 rfl (by decide) (by decide) (by decide) (by decide)
        | some o =>
          rw [(buildQuery_no_term skip limit term h 0 o).2.2.1]
          exact query_props _ _ 3 rfl (by decide) (by decide) (by decide) (by decide)
      | some f =>
        cases ct with
        | none =>
          rw [(buildQuery_no_term skip limit term h f 0).2.1]
          exact query_props _ _ 3 rfl (by decide) (by decide) (by decide) (by decide)
        | some o =>
          rw [(buildQuery_no_term skip limit term h f o).2.2.2]
          exact query_props _ _ 4 rfl (by decide) (by decide) (by decide) (by decide)
    · cases cf with
      | none =>
        cases ct with
        | none =>
          rw [(buildQuery_term skip limit t ht 0 0).1]
          exact query_props _ _ 3 rfl (by decide) (by decide) (by decide) (by decide)
        | some o =>
          rw [(buildQuery_term skip limit t ht 0 o).2.2.1]
          exact query_props _ _ 4 rfl (by decide) (by decide) (by decide) (by decide)
      | some f =>
        cases ct with
        | none =>
          rw [(buildQuery_term skip limit t ht f 0).2.1]
          exact query_props _ _ 4 rfl (by decide) (by decide) (by decide) (by decide)
        | some o =>
          rw [(buildQuery_term skip limit t ht f o).2.2.2]
          exact query_props _ _ 5 rfl (by decide) (by decide) (by decide) (by decide)
  · exact buildQuery_args skip limit term cf ct

/-- C30, at a concrete input: the four queries for the search term `0912`. -/
theorem getAllUsers_query_witness :
    buildQuery 20 10 (some "0912") none none
      = ("SELECT id, phone, created_at FROM users WHERE phone ILIKE $1" ++
          " ORDER BY id ASC OFFSET $2 LIMIT $3",
         [.text ("%" ++ "0912" ++ "%"), .int64 20, .int64 10]) ∧
    buildQuery 20 10 (some "0912") (some 5) none
      = ("SELECT id, phone, created_at FROM users WHERE phone ILIKE $1" ++
          " AND created_at >= $2 ORDER BY id ASC OFFSET $3 LIMIT $4",
         [.text ("%" ++ "0912" ++ "%"), .time 5, .int64 20, .int64 10]) ∧
    buildQuery 20 10 (some "0912") none (some 7)
      = ("SELECT id, phone, created_at FROM users WHERE phone ILIKE $1" ++
          " AND created_at <= $2 ORDER BY id ASC OFFSET $3 LIMIT $4",
         [.text ("%" ++ "0912" ++ "%"), .time 7, .int64 20, .int64 10]) ∧
    buildQuery 20 10 (some "0912") (some 5) (some 7)
      = ("SELECT id, phone, created_at FROM users WHERE phone ILIKE $1" ++
          " AND created_at >= $2 AND created_at <= $3 ORDER BY id ASC OFFSET $4 LIMIT $5",
         [.text ("%" ++ "0912" ++ "%"), .time 5, .time 7, .int64 20, .int64 10]) :=
  (getAllUsers_query 20 10 none none none).2.2.1 "0912" 5 7 (by decide)

end userRepository
end Dekamond

namespace Dekamond
namespace jwtUsecase

/-- C28 (the code departs from the claim): three tokens signed with the configured secret
with HS256 and not expired, at the instant 1700000000 s.  The first has no `userId` claim,
in the second `userId` is the string "7", in the third it is `null`.  On each of them
`ValidateToken` does not return: the type assertion `claims["userId"].(float64)` panics.
A token whose `userId` is a number and whose `refresh` is not a boolean returns, as the
two-result assertion on `refresh` does not panic. -/
theorem validateToken_panics_on_userId :
    ValidateToken "secret" (1700000000 * jwt.second)
        (.jws "HS256" [("exp", .number 2000000000)]
          ⟨"secret", "HS256", [("exp", .number 2000000000)]⟩)
      = .panicked "interface conversion: interface \x7b\x7d is not float64" ∧
    ValidateToken "secret" (1700000000 * jwt.second)
        (.jws "HS256" [("userId", .string "7"), ("exp", .number 2000000000)]
          ⟨"secret", "HS256", [("userId", .string "7"), ("exp", .number 2000000000)]⟩)
      = .panicked "interface conversion: interface \x7b\x7d is not float64" ∧
    ValidateToken "secret" (1700000000 * jwt.second)
        (.jws "HS256" [("userId", .null), ("exp", .number 2000000000)]
          ⟨"secret", "HS256", [("userId", .null), ("exp", .number 2000000000)]⟩)
      = .panicked "interface conversion: interface \x7b\x7d is not float64" ∧
    ValidateToken "secret" (1700000000 * jwt.second)
        (.jws "HS256" [("userId", .number 7), ("refresh", .string "yes"),
            ("exp", .number 2000000000)]
          ⟨"secret", "HS256", [("userId", .number 7), ("refresh", .string "yes"),
            ("exp", .number 2000000000)]⟩)
      = .returned ⟨7⟩ none := by
  refine ⟨?_, ?_, ?_, ?_⟩ <;> decide

end jwtUsecase
end Dekamond

namespace Dekamond

/-! ## The auth service on the store -/

namespace otp

/-- A call of `SendOtpSms` that finds a live counter standing at 3 or more: the counter is
raised, its expiry is kept, and the call reports the rate limit. -/
theorem SendOtpSms_limited (r : Redis) (t : Nat) (ef : GoError) (phone code : String)
    (e : Entry) (c : Int) (h : Redis.live r (rateKey phone) t = some e)
    (ha : Redis.asInt e.val = some c) (hc : 3 ≤ c) :
    SendOtpSms r t none ef phone code
      = (Redis.put r (rateKey phone) ⟨.int (c + 1), e.expireAt⟩, some errRateLimit) := by
  have h1 : ¬ (c + 1 = 1) := by omega
  have h3 : c + 1 > 3 := by omega
  simp [SendOtpSms, validateOtpRateLimit, Redis.incr, h, ha, h1, h3]

/-- What `SaveOTP` does when the store carries out its `SET`. -/
theorem SaveOTP_ok (r : Redis) (now : Nat) (phone code : String) :
    SaveOTP r now none phone code
      = (Redis.put r (codeKey phone) ⟨.str code, some (now + otpTTL)⟩, none) := by
  simp [SaveOTP, Redis.set]

/-- A call of `VerifyOTP` that fails returns the store it was given. -/
theorem VerifyOTP_failed (r : Redis) (now : Nat) (gf df : GoError) (phone code : String)
    (h : (VerifyOTP r now gf df phone code).2 ≠ none) :
    VerifyOTP r now gf df phone code = (r, some errInvalidOtp) := by
  rw [VerifyOTP_eq] at h ⊢
  cases gf with
  | some f => rfl
  | none =>
    cases hl : Redis.live r (codeKey phone) now with
    | none => rfl
    | some e =>
      by_cases hc : Redis.render e.val = code
      · simp [hl, hc] at h
      · simp [hc]

/-- A call of `VerifyOTP` on a store that holds the code `stored` for the phone, with
another code: it fails and returns the store it was given. -/
theorem VerifyOTP_wrong (r : Redis) (now : Nat) (gf df : GoError)
    (phone code stored : String) (x : Option Nat)
    (h : r (codeKey phone) = some ⟨.str stored, x⟩) (hne : code ≠ stored) :
    VerifyOTP r now gf df phone code = (r, some errInvalidOtp) := by
  rw [VerifyOTP_eq]
  cases gf with
  | some f => rfl
  | none =>
    cases hl : Redis.live r (codeKey phone) now with
    | none => rfl
    | some e =>
      have he := (Redis.live_eq_some r _ now e hl).1
      rw [h] at he
      have he' : e = ⟨.str stored, x⟩ := (Option.some.inj he).symm
      subst he'
      have : ¬ (Redis.render (Val.str stored) = code) := fun hh => hne (by rw [← hh]; rfl)
      simp [this]

/-- A call of `VerifyOTP` with the stored code before its expiry: it succeeds. -/
theorem VerifyOTP_right (r : Redis) (now : Nat) (df : GoError) (phone code : String)
    (exp : Nat) (h : r (codeKey phone) = some ⟨.str code, some exp⟩) (ht : now < exp) :
    VerifyOTP r now none df phone code = ((Redis.del r df (codeKey phone)).1, none) := by
  rw [VerifyOTP_eq]
  have hl : Redis.live r (codeKey phone) now = some ⟨.str code, some exp⟩ := by
    have : ¬ (exp ≤ now) := by omega
    simp [Redis.live, h, Redis.expired, this]
  simp [hl, Redis.render]

/-- A call of `VerifyOTP` when the stored code has reached its expiry: it fails. -/
theorem VerifyOTP_late (r : Redis) (now : Nat) (gf df : GoError) (phone code : String)
    (v : Val) (exp : Nat) (h : r (codeKey phone) = some ⟨v, some exp⟩) (ht : exp ≤ now) :
    VerifyOTP r now gf df phone code = (r, some errInvalidOtp) := by
  rw [VerifyOTP_eq]
  have hl : Redis.live r (codeKey phone) now = none := by
    simp [Redis.live, h, Redis.expired, ht]
  cases gf with
  | some f => rfl
  | none => simp [hl]

/-- A run of `VerifyOTP` calls with codes other than the stored one returns the store it
was given. -/
theorem verifyOTPRun_wrong (r : Redis) (phone stored : String) (x : Option Nat)
    (h : r (codeKey phone) = some ⟨.str stored, x⟩)
    (attempts : List (Nat × String × GoError × GoError))
    (hw : ∀ a ∈ attempts, a.2.1 ≠ stored) : verifyOTPRun r phone attempts = r := by
  induction attempts with
  | nil => rfl
  | cons a rest ih =>
    obtain ⟨t, code, gf, df⟩ := a
    have hne : code ≠ stored := hw (t, code, gf, df) (List.mem_cons_self _ _)
    simp only [verifyOTPRun]
    rw [VerifyOTP_wrong r t gf df phone code stored x h hne]
    exact ih (fun a ha => hw a (List.mem_cons_of_mem _ ha))

end otp

namespace authService

/-- Method `LoginRequestOtp` over the store, for a request that passes the validation, when
the random source draws a number and the store carries out the `SET`: the code is saved,
and the result is the one of `SendOtpSms` on the store with the code saved. -/
theorem LoginRequestOtp_onStore (m : Mock) (env : Env) (w : World) (req : dto.LoginDTO)
    (n : Nat) (code : String)
    (hv : utils.ValidateStruct "LoginDTO" req.fields = none)
    (hd : env.draw = .ok n) (hcode : otp.GenerateOTP (.ok n) = (code, none))
    (hs : env.setFault = none) :
    LoginRequestOtp (m.onStore env) w req
      = (⟨(otp.SendOtpSms
              (Redis.put w.redis (otp.codeKey req.Phone) ⟨.str code, some (w.now + otp.otpTTL)⟩)
              w.now env.incrFault env.expireFault req.Phone code).1, w.now⟩,
          (otp.SendOtpSms
              (Redis.put w.redis (otp.codeKey req.Phone) ⟨.str code, some (w.now + otp.otpTTL)⟩)
              w.now env.incrFault env.expireFault req.Phone code).2) := by
  simp only [LoginRequestOtp, hv, Mock.onStore, otp.usecase, hd, hcode, hs, otp.SaveOTP_ok]

end authService
end Dekamond

namespace Dekamond
namespace authService

/-- C25: a login request that passes the validation, the random source drawing `n` and the
store carrying out `SET` and `INCR`, for a phone whose counter is live and stands at 3 or
more.  `LoginRequestOtp` fails with the rate-limit error of `SendOtpSms`, and the store
after the failed call holds the freshly generated code for the phone with the expiry two
minutes after the call, whatever code it held before: `VerifyOTP` with the new code
succeeds at every instant before that expiry and fails from it on, and `VerifyOTP` with any
other code (an earlier one included) fails. -/
theorem loginRequestOtp_rate_limited_code_saved (m : Mock) (env : Env) (w : World)
    (req : dto.LoginDTO) (n : Nat) (e : Entry) (c : Int)
    (hv : utils.ValidateStruct "LoginDTO" req.fields = none)
    (hd : env.draw = .ok n) (hs : env.setFault = none) (hi : env.incrFault = none)
    (hlive : Redis.live w.redis (otp.rateKey req.Phone) w.now = some e)
    (hcount : Redis.asInt e.val = some c) (hc : 3 ≤ c) :
    (LoginRequestOtp (m.onStore env) w req).2 = some otp.errRateLimit ∧
    (LoginRequestOtp (m.onStore env) w req).1.redis (otp.codeKey req.Phone)
      = some ⟨.str (otp.GenerateOTP (.ok n)).1, some (w.now + 2 * 60 * 1000)⟩ ∧
    (∀ (t : Nat) (df : GoError), t < w.now + 2 * 60 * 1000 →
      (otp.VerifyOTP (LoginRequestOtp (m.onStore env) w req).1.redis t none df req.Phone
        (otp.GenerateOTP (.ok n)).1).2 = none) ∧
    (∀ (t : Nat) (gf df : GoError), w.now + 2 * 60 * 1000 ≤ t →
      (otp.VerifyOTP (LoginRequestOtp (m.onStore env) w req).1.redis t gf df req.Phone
        (otp.GenerateOTP (.ok n)).1).2 = some "invalid or expired otp") ∧
    (∀ (t : Nat) (gf df : GoError) (old : String), old ≠ (otp.GenerateOTP (.ok n)).1 →
      (otp.VerifyOTP (LoginRequestOtp (m.onStore env) w req).1.redis t gf df req.Phone old).2
        = some "invalid or expired otp") := by
  obtain ⟨code, hcode⟩ : ∃ code, otp.GenerateOTP (.ok n) = (code, none) := ⟨_, rfl⟩
  have hne : otp.rateKey req.Phone ≠ otp.codeKey req.Phone :=
    fun h => otp.codeKey_ne_rateKey _ _ h.symm
  have hlive' : Redis.live
      (Redis.put w.redis (otp.codeKey req.Phone) ⟨.str code, some (w.now + otp.otpTTL)⟩)
      (otp.rateKey req.Phone) w.now = some e := by
    rw [Redis.live_put_other _ _ _ _ _ hne]; exact hlive
  rw [LoginRequestOtp_onStore m env w req n code hv hd hcode hs, hi,
    otp.SendOtpSms_limited _ w.now env.expireFault req.Phone code e c hlive' hcount hc, hcode]
  have hstored : (Redis.put
      (Redis.put w.redis (otp.codeKey req.Phone) ⟨.str code, some (w.now + otp.otpTTL)⟩)
      (otp.rateKey req.Phone) ⟨.int (c + 1), e.expireAt⟩) (otp.codeKey req.Phone)
      = some ⟨.str code, some (w.now + 2 * 60 * 1000)⟩ := by
    simp [Redis.put, otp.codeKey_ne_rateKey, otp.otpTTL]
  refine ⟨rfl, hstored, ?_, ?_, ?_⟩
  · intro t df ht
    rw [otp.VerifyOTP_right _ t df req.Phone code _ hstored ht]
  · intro t gf df ht
    rw [otp.VerifyOTP_late _ t gf df req.Phone code _ _ hstored ht]
    rfl
  · intro t gf df old hold
    rw [otp.VerifyOTP_wrong _ t gf df req.Phone old code _ hstored hold]
    rfl

/-- An instance of C25: the phone has made three requests, the code 11111 is stored, and the
source draws 2345.  The fourth request fails with the rate limit, the code 12345 then
verifies and 11111 does not. -/
theorem loginRequestOtp_rate_limited_code_saved_witness :
    (LoginRequestOtp (Mock.happy.onStore (Env.quiet 2345))
      ⟨Redis.put (Redis.put Redis.empty (otp.rateKey "+1234567890") ⟨.int 3, some 600000⟩)
        (otp.codeKey "+1234567890") ⟨.str "11111", some 150000⟩, 60000⟩
      ⟨"+1234567890"⟩).2 = some "rate limit exceeded: max 3 OTPs per 10 minutes" ∧
    (otp.VerifyOTP (LoginRequestOtp (Mock.happy.onStore (Env.quiet 2345))
      ⟨Redis.put (Redis.put Redis.empty (otp.rateKey "+1234567890") ⟨.int 3, some 600000⟩)
        (otp.codeKey "+1234567890") ⟨.str "11111", some 150000⟩, 60000⟩
      ⟨"+1234567890"⟩).1.redis 61000 none none "+1234567890" "12345").2 = none ∧
    (otp.VerifyOTP (LoginRequestOtp (Mock.happy.onStore (Env.quiet 2345))
      ⟨Redis.put (Redis.put Redis.empty (otp.rateKey "+1234567890") ⟨.int 3, some 600000⟩)
        (otp.codeKey "+1234567890") ⟨.str "11111", some 150000⟩, 60000⟩
      ⟨"+1234567890"⟩).1.redis 61000 none none "+1234567890" "11111").2
      = some "invalid or expired otp" :=
  have h := loginRequestOtp_rate_limited_code_saved Mock.happy (Env.quiet 2345)
    ⟨Redis.put (Redis.put Redis.empty (otp.rateKey "+1234567890") ⟨.int 3, some 600000⟩)
      (otp.codeKey "+1234567890") ⟨.str "11111", some 150000⟩, 60000⟩
    ⟨"+1234567890"⟩ 2345 ⟨.int 3, some 600000⟩ 3 (by decide) rfl rfl rfl (by decide) rfl
    (by decide)
  ⟨h.1, h.2.2.1 61000 none (by decide), h.2.2.2.2 61000 none none "11111" (by decide)⟩

end authService
end Dekamond

namespace Dekamond
namespace otp

/-- C26: a call of `VerifyOTP` that fails returns the store it was given.  When the store
holds a code for a phone with the expiry `exp`, then after any number of `VerifyOTP` calls
for that phone with other codes, at any instants and whatever the store answers, every
call has failed with "invalid or expired otp", the store is the same (the code, its expiry
and every counter), and `VerifyOTP` with the stored code at an instant before `exp`
succeeds. -/
theorem verifyOTP_wrong_guesses_frame (r : Redis) (phone code : String) (exp : Nat)
    (attempts : List (Nat × String × GoError × GoError))
    (hstored : r (codeKey phone) = some ⟨.str code, some exp⟩)
    (hwrong : ∀ a ∈ attempts, a.2.1 ≠ code) :
    (∀ (s : Redis) (t : Nat) (gf df : GoError) (p guess : String),
      (VerifyOTP s t gf df p guess).2 ≠ none → (VerifyOTP s t gf df p guess).1 = s) ∧
    (∀ a ∈ attempts,
      VerifyOTP r a.1 a.2.2.1 a.2.2.2 phone a.2.1 = (r, some "invalid or expired otp")) ∧
    verifyOTPRun r phone attempts = r ∧
    (∀ k : String, verifyOTPRun r phone attempts k = r k) ∧
    (∀ (t : Nat) (df : GoError), t < exp →
      (VerifyOTP (verifyOTPRun r phone attempts) t none df phone code).2 = none) := by
  have hrun := verifyOTPRun_wrong r phone code (some exp) hstored attempts hwrong
  refine ⟨?_, ?_, hrun, fun k => by rw [hrun], ?_⟩
  · intro s t gf df p guess hf
    rw [VerifyOTP_failed s t gf df p guess hf]
  · intro a ha
    exact VerifyOTP_wrong r a.1 a.2.2.1 a.2.2.2 phone a.2.1 code (some exp) hstored
      (hwrong a ha)
  · intro t df ht
    rw [hrun, VerifyOTP_right r t df phone code exp hstored ht]

/-- An instance of C26: four wrong guesses in a row, then the right code one second before
the two minutes are over. -/
theorem verifyOTP_wrong_guesses_frame_witness :
    verifyOTPRun (SaveOTP Redis.empty 0 none "+1234567890" "12345").1 "+1234567890"
        [(1000, "00000", none, none), (2000, "54321", none, none),
          (3000, "1234", none, none), (4000, "99999", none, some "connection lost")]
      = (SaveOTP Redis.empty 0 none "+1234567890" "12345").1 ∧
    (VerifyOTP (verifyOTPRun (SaveOTP Redis.empty 0 none "+1234567890" "12345").1
        "+1234567890"
        [(1000, "00000", none, none), (2000, "54321", none, none),
          (3000, "1234", none, none), (4000, "99999", none, some "connection lost")])
      119000 none none "+1234567890" "12345").2 = none :=
  have h := verifyOTP_wrong_guesses_frame (SaveOTP Redis.empty 0 none "+1234567890" "12345").1
    "+1234567890" "12345" 120000
    [(1000, "00000", none, none), (2000, "54321", none, none),
      (3000, "1234", none, none), (4000, "99999", none, some "connection lost")]
    (by decide) (by decide)
  ⟨h.2.2.1, h.2.2.2.2 119000 none (by decide)⟩

end otp
end Dekamond

namespace Dekamond
namespace authService

/-- Method `VerifyLoginOTP` over the store never changes the instant, and the store it
leaves is the one `VerifyOTP` returned, for a request that passes the validation. -/
theorem VerifyLoginOTP_onStore_state (m : Mock) (env : Env) (w : World)
    (body : dto.VerifyLoginOTP)
    (hv : utils.ValidateStruct "VerifyLoginOTP" body.fields = none) :
    (VerifyLoginOTP (m.onStore env) w body).1
      = ⟨(otp.VerifyOTP w.redis w.now env.getFault env.delFault body.Phone body.OTP).1,
          w.now⟩ := by
  cases hr : otp.VerifyOTP w.redis w.now env.getFault env.delFault body.Phone body.OTP with
  | mk r1 e1 =>
    cases e1 with
    | some err => simp [VerifyLoginOTP, hv, Mock.onStore, otp.usecase, hr]
    | none =>
      cases hg : m.getUserByPhone body.Phone with
      | mk u ge =>
        cases ge with
        | none =>
          cases ht : m.generateToken ⟨u.Id⟩ with
          | mk tok te =>
            cases te <;>
              simp [VerifyLoginOTP, hv, Mock.onStore, otp.usecase, hr, hg, issueToken, ht]
        | some err =>
          by_cases hnf : isNotFound err = true
          · cases hc : m.createUser { User.zero with Phone := body.Phone } with
            | mk u2 ce =>
              cases ce with
              | some err2 =>
                simp [VerifyLoginOTP, hv, Mock.onStore, otp.usecase, hr, hg, hnf, hc]
              | none =>
                cases ht : m.generateToken ⟨u2.Id⟩ with
                | mk tok te =>
                  cases te <;>
                    simp [VerifyLoginOTP, hv, Mock.onStore, otp.usecase, hr, hg, hnf, hc,
                      issueToken, ht]
          · simp [VerifyLoginOTP, hv, Mock.onStore, otp.usecase, hr, hg, hnf]

/-- Method `VerifyLoginOTP` over the store when `VerifyOTP` fails: its error is returned
with an empty token. -/
theorem VerifyLoginOTP_onStore_otp_err (m : Mock) (env : Env) (w : World)
    (body : dto.VerifyLoginOTP) (err : String)
    (hv : utils.ValidateStruct "VerifyLoginOTP" body.fields = none)
    (ho : (otp.VerifyOTP w.redis w.now env.getFault env.delFault body.Phone body.OTP).2
      = some err) :
    (VerifyLoginOTP (m.onStore env) w body).2 = ("", some err) := by
  cases hr : otp.VerifyOTP w.redis w.now env.getFault env.delFault body.Phone body.OTP with
  | mk r1 e1 =>
    rw [hr] at ho
    simp only at ho
    subst ho
    simp [VerifyLoginOTP, hv, Mock.onStore, otp.usecase, hr]

/-- Method `VerifyLoginOTP` over the store when `VerifyOTP` succeeds: a failure comes with
an empty token and is the error of `GetUserByPhone`, of `CreateUser` or of
`GenerateToken`. -/
theorem VerifyLoginOTP_onStore_failure (m : Mock) (env : Env) (w : World)
    (body : dto.VerifyLoginOTP) (err : String)
    (hv : utils.ValidateStruct "VerifyLoginOTP" body.fields = none)
    (ho : (otp.VerifyOTP w.redis w.now env.getFault env.delFault body.Phone body.OTP).2 = none)
    (hf : (VerifyLoginOTP (m.onStore env) w body).2.2 = some err) :
    (VerifyLoginOTP (m.onStore env) w body).2.1 = "" ∧
    ((m.getUserByPhone body.Phone).2 = some err ∨
      (m.createUser { User.zero with Phone := body.Phone }).2 = some err ∨
      ∃ u : User, (m.generateToken ⟨u.Id⟩).2 = some err) := by
  cases hr : otp.VerifyOTP w.redis w.now env.getFault env.delFault body.Phone body.OTP with
  | mk r1 e1 =>
    rw [hr] at ho
    simp only at ho
    subst ho
    cases hg : m.getUserByPhone body.Phone with
    | mk u ge =>
      cases ge with
      | none =>
        cases ht : m.generateToken ⟨u.Id⟩ with
        | mk tok te =>
          cases te with
          | none =>
            simp [VerifyLoginOTP, hv, Mock.onStore, otp.usecase, hr, hg, issueToken, ht] at hf
          | some e3 =>
            have hres : (VerifyLoginOTP (m.onStore env) w body).2 = ("", some e3) := by
              simp [VerifyLoginOTP, hv, Mock.onStore, otp.usecase, hr, hg, issueToken, ht]
            rw [hres] at hf ⊢
            simp only [Option.some.injEq] at hf
            subst hf
            exact ⟨rfl, Or.inr (Or.inr ⟨u, by rw [ht]⟩)⟩
      | some e1 =>
        by_cases hnf : isNotFound e1 = true
        · cases hc : m.createUser { User.zero with Phone := body.Phone } with
          | mk u2 ce =>
            cases ce with
            | some e2 =>
              have hres : (VerifyLoginOTP (m.onStore env) w body).2 = ("", some e2) := by
                simp [VerifyLoginOTP, hv, Mock.onStore, otp.usecase, hr, hg, hnf, hc]
              rw [hres] at hf ⊢
              simp only [Option.some.injEq] at hf
              subst hf
              exact ⟨rfl, Or.inr (Or.inl rfl)⟩
            | none =>
              cases ht : m.generateToken ⟨u2.Id⟩ with
              | mk tok te =>
                cases te with
                | none =>
                  simp [VerifyLoginOTP, hv, Mock.onStore, otp.usecase, hr, hg, hnf, hc,
                    issueToken, ht] at hf
                | some e3 =>
                  have hres : (VerifyLoginOTP (m.onStore env) w body).2 = ("", some e3) := by
                    simp [VerifyLoginOTP, hv, Mock.onStore, otp.usecase, hr, hg, hnf, hc,
                      issueToken, ht]
                  rw [hres] at hf ⊢
                  simp only [Option.some.injEq] at hf
                  subst hf
                  exact ⟨rfl, Or.inr (Or.inr ⟨u2, by rw [ht]⟩)⟩
        · have hres : (VerifyLoginOTP (m.onStore env) w body).2 = ("", some e1) := by
            simp [VerifyLoginOTP, hv, Mock.onStore, otp.usecase, hr, hg, hnf]
          rw [hres] at hf ⊢
          simp only [Option.some.injEq] at hf
          subst hf
          exact ⟨rfl, Or.inl rfl⟩

end authService
end Dekamond

namespace Dekamond
namespace otp

/-- A call of `VerifyOTP` that succeeds returns the store after its `DEL`. -/
theorem VerifyOTP_ok_store (r : Redis) (now : Nat) (gf df : GoError) (phone code : String)
    (h : (VerifyOTP r now gf df phone code).2 = none) :
    (VerifyOTP r now gf df phone code).1 = (Redis.del r df (codeKey phone)).1 := by
  rw [VerifyOTP_eq] at h ⊢
  cases gf with
  | some f => simp at h
  | none =>
    cases hl : Redis.live r (codeKey phone) now with
    | none => simp [hl] at h
    | some e =>
      by_cases hc : Redis.render e.val = code
      · simp [hc]
      · simp [hl, hc] at h

/-- A call of `VerifyOTP` on a store with no code for the phone fails. -/
theorem VerifyOTP_absent (r : Redis) (now : Nat) (gf df : GoError) (phone code : String)
    (h : r (codeKey phone) = none) :
    VerifyOTP r now gf df phone code = (r, some errInvalidOtp) := by
  rw [VerifyOTP_eq]
  have hl : Redis.live r (codeKey phone) now = none := by simp [Redis.live, h]
  cases gf with
  | some f => rfl
  | none => simp [hl]

end otp
end Dekamond

namespace Dekamond
namespace authService

/-- C27 (as stated, refuted): the code 12345 is stored, `VerifyOTP` succeeds while its `DEL`
fails (the error is dropped), and `GetUserByPhone` fails.  `VerifyLoginOTP` returns that
error with an empty token, the code is still stored, and repeating `VerifyLoginOTP` with
the same phone and code succeeds and returns a token. -/
theorem verifyLoginOTP_repeat_succeeds_when_delete_fails :
    (otp.VerifyOTP (otp.SaveOTP Redis.empty 0 none "+1234567890" "12345").1 1000 none
      (some "connection lost") "+1234567890" "12345").2 = none ∧
    (VerifyLoginOTP
      ({ Mock.happy with
          getUserByPhone := fun _ => (User.zero, some "database is down") }.onStore
        { Env.quiet 0 with delFault := some "connection lost" })
      ⟨(otp.SaveOTP Redis.empty 0 none "+1234567890" "12345").1, 1000⟩
      ⟨"+1234567890", "12345"⟩).2 = ("", some "database is down") ∧
    (VerifyLoginOTP (Mock.happy.onStore (Env.quiet 0))
      ⟨(VerifyLoginOTP
        ({ Mock.happy with
            getUserByPhone := fun _ => (User.zero, some "database is down") }.onStore
          { Env.quiet 0 with delFault := some "connection lost" })
        ⟨(otp.SaveOTP Redis.empty 0 none "+1234567890" "12345").1, 1000⟩
        ⟨"+1234567890", "12345"⟩).1.redis, 2000⟩
      ⟨"+1234567890", "12345"⟩).2 = ("jwt-token-123", none) := by
  refine ⟨by decide, by decide, by decide⟩

/-- C27 (amended): a request that passes the validation, `VerifyOTP` succeeds and the store
carries out its `DEL`, and the call fails (`GetUserByPhone`, `CreateUser` or
`GenerateToken` fails).  `VerifyLoginOTP` returns that error with an empty token; the
store it leaves holds no code for the phone; and repeating `VerifyLoginOTP` on that store
with the same phone and code, at any instant, whatever the store and the other
collaborators then do, fails with "invalid or expired otp" and an empty token. -/
theorem verifyLoginOTP_consumes_otp (m m2 : Mock) (env env2 : Env) (w : World)
    (body : dto.VerifyLoginOTP) (t2 : Nat) (err : String)
    (hv : utils.ValidateStruct "VerifyLoginOTP" body.fields = none)
    (ho : (otp.VerifyOTP w.redis w.now env.getFault env.delFault body.Phone body.OTP).2 = none)
    (hdel : env.delFault = none)
    (hf : (VerifyLoginOTP (m.onStore env) w body).2.2 = some err) :
    (VerifyLoginOTP (m.onStore env) w body).2 = ("", some err) ∧
    ((m.getUserByPhone body.Phone).2 = some err ∨
      (m.createUser { User.zero with Phone := body.Phone }).2 = some err ∨
      ∃ u : User, (m.generateToken ⟨u.Id⟩).2 = some err) ∧
    (VerifyLoginOTP (m.onStore env) w body).1.redis (otp.codeKey body.Phone) = none ∧
    (VerifyLoginOTP (m2.onStore env2)
      ⟨(VerifyLoginOTP (m.onStore env) w body).1.redis, t2⟩ body).2
      = ("", some "invalid or expired otp") := by
  obtain ⟨htok, hwho⟩ := VerifyLoginOTP_onStore_failure m env w body err hv ho hf
  have hgone : (VerifyLoginOTP (m.onStore env) w body).1.redis (otp.codeKey body.Phone)
      = none := by
    rw [VerifyLoginOTP_onStore_state m env w body hv]
    simp only
    rw [otp.VerifyOTP_ok_store _ _ _ _ _ _ ho, hdel]
    simp [Redis.del, Redis.erase]
  refine ⟨Prod.ext htok hf, hwho, hgone, ?_⟩
  exact VerifyLoginOTP_onStore_otp_err m2 env2 _ body otp.errInvalidOtp hv
    (by rw [otp.VerifyOTP_absent _ _ _ _ _ _ hgone])

/-- An instance of C27 as amended: the delete is carried out, `GetUserByPhone` fails, and
the repeated call is refused. -/
theorem verifyLoginOTP_consumes_otp_witness :
    (VerifyLoginOTP
      ({ Mock.happy with
          getUserByPhone := fun _ => (User.zero, some "database is down") }.onStore
        (Env.quiet 0))
      ⟨(otp.SaveOTP Redis.empty 0 none "+1234567890" "12345").1, 1000⟩
      ⟨"+1234567890", "12345"⟩).2 = ("", some "database is down") ∧
    (VerifyLoginOTP (Mock.happy.onStore (Env.quiet 0))
      ⟨(VerifyLoginOTP
        ({ Mock.happy with
            getUserByPhone := fun _ => (User.zero, some "database is down") }.onStore
          (Env.quiet 0))
        ⟨(otp.SaveOTP Redis.empty 0 none "+1234567890" "12345").1, 1000⟩
        ⟨"+1234567890", "12345"⟩).1.redis, 2000⟩
      ⟨"+1234567890", "12345"⟩).2 = ("", some "invalid or expired otp") :=
  have h := verifyLoginOTP_consumes_otp
    { Mock.happy with getUserByPhone := fun _ => (User.zero, some "database is down") }
    Mock.happy (Env.quiet 0) (Env.quiet 0)
    ⟨(otp.SaveOTP Redis.empty 0 none "+1234567890" "12345").1, 1000⟩
    ⟨"+1234567890", "12345"⟩ 2000 "database is down" (by decide) (by decide) rfl (by decide)
  ⟨h.1, h.2.2.2⟩

end authService
end Dekamond
